import Mathlib

/-!
# Verification of `conv4bit.py`

A shallow embedding of the terminal-colortheme converter `conv4bit.py`
(Color / Theme data model, the decoders `read_nidx`, `read_csv`,
`read_stconf`, `read_xres`, `read_yaml`, and the encoders `write_nidx`,
`write_csv`, `write_stconf`, `write_xres`, `write_osc`), together with
proofs of the specification's claims about it.

Conventions of the embedding:

* Python strings are embedded as `List Char`; an input stream is embedded as
  the list of its lines.  Python's line iterator keeps the trailing `'\n'`
  on each line; we model lines without the trailing newline, which is
  observationally equivalent for every per-line operation the program uses
  (`startswith`, whitespace `split` which discards trailing whitespace,
  `split(',')` whose trailing `'\n'` only ever lands behind a color literal
  where `Color.parse` ignores trailing characters, and the regexes, none of
  which can match across or beyond the newline).
* Fallible Python code (exceptions) is embedded as `Except Err`.
* `re.match`/`re.search` calls are translated into explicit matching
  functions on `List Char`, one per regex, following Python's
  leftmost-match-wins, greedy-with-backtracking semantics (for every regex
  in this program greediness is forced: each quantified atom is followed by
  a character it cannot consume, so no backtracking can succeed where the
  greedy parse fails).
-/

/-- Error kinds: one constructor per distinct Python exception site. -/
inductive Err where
  /-- `'unexpected format on line {i}'` raised by `read_nidx`/`read_csv`
  (0-based index from `enumerate`). -/
  | formatError (line : Nat)
  /-- `'unexpected color format: {s}'` raised by `Color.parse`. -/
  | colorFormatError (s : List Char)
  /-- `KeyError` from a dict lookup (`color_for[i]`, `NAME_FOR[num]`,
  `doc[key]`). -/
  | keyError
  /-- `ValueError` from `int()` on a non-numeric string. -/
  | valueError
  /-- `'unexpected line format: {line}'` raised by `read_xres`. -/
  | lineFormatError (line : List Char)
  /-- `TypeError`: `Theme(**d)` with a missing or unexpected keyword, or
  subscripting / regex-matching a non-string. -/
  | typeError
  /-- `ValueError('unexpected yaml format')` raised by `read_yaml`. -/
  | yamlError
  deriving DecidableEq, Repr

instance {ε α : Type} [DecidableEq ε] [DecidableEq α] : DecidableEq (Except ε α) :=
  fun x y =>
    match x, y with
    | .ok a, .ok b =>
      if h : a = b then .isTrue (by rw [h]) else .isFalse (by simp [h])
    | .error a, .error b =>
      if h : a = b then .isTrue (by rw [h]) else .isFalse (by simp [h])
    | .ok _, .error _ => .isFalse (by simp)
    | .error _, .ok _ => .isFalse (by simp)

/-- The character class `[0-9a-fA-F]` of the color regexes. -/
def hexDigits : List Char := "0123456789abcdefABCDEF".toList

def isHexDigit (c : Char) : Bool := hexDigits.contains c

/-- The character class `\d` (the program only ever feeds it ASCII). -/
def digitChars : List Char := "0123456789".toList

def isDigit (c : Char) : Bool := digitChars.contains c

/-- Numeric value of one hex digit, as `int(s, 16)` assigns it. -/
def hexVal (c : Char) : Nat :=
  if isDigit c then c.toNat - 48
  else if 'a' ≤ c ∧ c ≤ 'f' then c.toNat - 87
  else c.toNat - 55

/-- Value of a run of decimal digits, as `int(s)` assigns it. -/
def digitsToNat (ds : List Char) : Nat :=
  ds.foldl (fun a c => 10 * a + (c.toNat - 48)) 0

/-- ASCII lowercasing (`str.lower` restricted to the ASCII range, the only
range hex digits live in). -/
def pyLower (c : Char) : Char :=
  if 'A' ≤ c ∧ c ≤ 'Z' then Char.ofNat (c.toNat + 32) else c

/-- `class Color`: three integer channels.  The parser only ever constructs
channels in `[0, 255]` (`Color.valid`). -/
structure Color where
  r : Nat
  g : Nat
  b : Nat
  deriving DecidableEq, Repr

/-- The data-model invariant: each channel in `[0, 255]`. -/
def Color.valid (c : Color) : Prop := c.r ≤ 255 ∧ c.g ≤ 255 ∧ c.b ≤ 255

instance (c : Color) : Decidable c.valid := by unfold Color.valid; infer_instance

/-- Six hex digits to a Color, as the body of `Color.parse` computes it:
`int(digits[0:2], 16)` etc. -/
def colorOfHex (d0 d1 d2 d3 d4 d5 : Char) : Color :=
  ⟨16 * hexVal d0 + hexVal d1, 16 * hexVal d2 + hexVal d3, 16 * hexVal d4 + hexVal d5⟩

/-- The regex body `[0-9a-fA-F]{6}` applied at the current position:
exactly six hex digits, arbitrary continuation. -/
def parseHex6 (cs : List Char) : Option Color :=
  match cs with
  | d0 :: d1 :: d2 :: d3 :: d4 :: d5 :: _ =>
    if (isHexDigit d0 && isHexDigit d1 && isHexDigit d2 &&
        isHexDigit d3 && isHexDigit d4 && isHexDigit d5) then
      some (colorOfHex d0 d1 d2 d3 d4 d5)
    else none
  | _ => none

/-- `Color.parse`: `re.match(r'(?:#|0x)([0-9a-fA-F]{6})', s)`.  `re.match`
anchors at the start of the string; the alternation's two arms start with
distinct characters so their order is irrelevant. -/
def Color.parse (s : List Char) : Except Err Color :=
  match s with
  | '#' :: rest =>
    match parseHex6 rest with
    | some c => .ok c
    | none => .error (.colorFormatError s)
  | '0' :: 'x' :: rest =>
    match parseHex6 rest with
    | some c => .ok c
    | none => .error (.colorFormatError s)
  | _ => .error (.colorFormatError s)

/-- One channel under `f'{r:02x}'`: two lowercase hex digits for channels
within the `Color` invariant, the unpadded multi-digit form beyond it. -/
def hex02 (n : Nat) : List Char :=
  if n ≤ 255 then [Nat.digitChar (n / 16), Nat.digitChar (n % 16)]
  else Nat.toDigits 16 n

/-- `Color.hex`: `f'#{self.r:02x}{self.g:02x}{self.b:02x}'`. -/
def Color.hex (c : Color) : List Char :=
  '#' :: (hex02 c.r ++ hex02 c.g ++ hex02 c.b)

-- Sanity instances of the hex codec on concrete data.
example : Color.parse "#cccccc".toList = .ok ⟨204, 204, 204⟩ := by decide
example : Color.parse "0xAbCdEf".toList = .ok ⟨171, 205, 239⟩ := by decide
example : Color.parse "#12345".toList =
    .error (.colorFormatError "#12345".toList) := by decide
example : Color.hex ⟨171, 205, 239⟩ = "#abcdef".toList := by decide

/-! ## Theme and the `Theme(**color_dict)` construction step -/

/-- `class Theme`: 20 named Color slots. -/
structure Theme where
  foreground : Color
  background : Color
  black : Color
  red : Color
  green : Color
  yellow : Color
  blue : Color
  magenta : Color
  cyan : Color
  white : Color
  black_bright : Color
  red_bright : Color
  green_bright : Color
  yellow_bright : Color
  blue_bright : Color
  magenta_bright : Color
  cyan_bright : Color
  white_bright : Color
  cursor : Color
  cursor_reverse : Color
  deriving DecidableEq, Repr

/-- All 20 channels within the Color invariant. -/
def Theme.valid (t : Theme) : Prop :=
  t.foreground.valid ∧ t.background.valid ∧
  t.black.valid ∧ t.red.valid ∧ t.green.valid ∧ t.yellow.valid ∧
  t.blue.valid ∧ t.magenta.valid ∧ t.cyan.valid ∧ t.white.valid ∧
  t.black_bright.valid ∧ t.red_bright.valid ∧ t.green_bright.valid ∧
  t.yellow_bright.valid ∧ t.blue_bright.valid ∧ t.magenta_bright.valid ∧
  t.cyan_bright.valid ∧ t.white_bright.valid ∧
  t.cursor.valid ∧ t.cursor_reverse.valid

instance (t : Theme) : Decidable t.valid := by unfold Theme.valid; infer_instance

/-- Default for the `cursor` slot: `Color.parse('#cccccc')`. -/
def cursorDefault : Color := ⟨204, 204, 204⟩

/-- Default for the `cursor_reverse` slot: `Color.parse('#555555')`. -/
def cursorReverseDefault : Color := ⟨85, 85, 85⟩

-- The field names, as character lists.
def fgN : List Char := "foreground".toList
def bgN : List Char := "background".toList
def blackN : List Char := "black".toList
def redN : List Char := "red".toList
def greenN : List Char := "green".toList
def yellowN : List Char := "yellow".toList
def blueN : List Char := "blue".toList
def magentaN : List Char := "magenta".toList
def cyanN : List Char := "cyan".toList
def whiteN : List Char := "white".toList
def blackBN : List Char := "black_bright".toList
def redBN : List Char := "red_bright".toList
def greenBN : List Char := "green_bright".toList
def yellowBN : List Char := "yellow_bright".toList
def blueBN : List Char := "blue_bright".toList
def magentaBN : List Char := "magenta_bright".toList
def cyanBN : List Char := "cyan_bright".toList
def whiteBN : List Char := "white_bright".toList
def cursorN : List Char := "cursor".toList
def cursorRevN : List Char := "cursor_reverse".toList

/-- `COLORS_3BIT`. -/
def COLORS_3BIT : List (List Char) :=
  [blackN, redN, greenN, yellowN, blueN, magentaN, cyanN, whiteN]

/-- `NAME_FOR` (0–15 → the 16 ANSI names, normal then bright), as an ordered
list indexed by position. -/
def NAME_FOR : List (List Char) :=
  [blackN, redN, greenN, yellowN, blueN, magentaN, cyanN, whiteN,
   blackBN, redBN, greenBN, yellowBN, blueBN, magentaBN, cyanBN, whiteBN]

/-- The 20 keyword names `Theme(**d)` accepts. -/
def themeFields : List (List Char) :=
  [fgN, bgN] ++ NAME_FOR ++ [cursorN, cursorRevN]

/-- The 18 keyword names `Theme(**d)` requires (all but the two defaulted
cursor slots). -/
def requiredFields : List (List Char) := [fgN, bgN] ++ NAME_FOR

/-! A Python `dict[str, Color]` in insertion order.  Assignment to an
existing key overwrites in place; assignment to a fresh key appends. -/

abbrev Dict := List (List Char × Color)

def dictInsert (d : Dict) (k : List Char) (v : Color) : Dict :=
  match d with
  | [] => [(k, v)]
  | (k', v') :: t => if k' = k then (k', v) :: t else (k', v') :: dictInsert t k v

def dictLookup (d : Dict) (k : List Char) : Option Color :=
  match d with
  | [] => none
  | (k', v') :: t => if k' = k then some v' else dictLookup t k

/-- `Theme(**d)`: raises `TypeError` when `d` holds a keyword outside the 20
field names or lacks one of the 18 required ones; otherwise constructs the
record, defaulting the two cursor slots.  (The `getD` fallbacks on required
fields are unreachable: the guard has checked the lookups succeed.) -/
def mkTheme (d : Dict) : Except Err Theme :=
  if (d.all fun p => themeFields.contains p.1) &&
     (requiredFields.all fun k => (dictLookup d k).isSome) then
    .ok
      { foreground := (dictLookup d fgN).getD ⟨0, 0, 0⟩
        background := (dictLookup d bgN).getD ⟨0, 0, 0⟩
        black := (dictLookup d blackN).getD ⟨0, 0, 0⟩
        red := (dictLookup d redN).getD ⟨0, 0, 0⟩
        green := (dictLookup d greenN).getD ⟨0, 0, 0⟩
        yellow := (dictLookup d yellowN).getD ⟨0, 0, 0⟩
        blue := (dictLookup d blueN).getD ⟨0, 0, 0⟩
        magenta := (dictLookup d magentaN).getD ⟨0, 0, 0⟩
        cyan := (dictLookup d cyanN).getD ⟨0, 0, 0⟩
        white := (dictLookup d whiteN).getD ⟨0, 0, 0⟩
        black_bright := (dictLookup d blackBN).getD ⟨0, 0, 0⟩
        red_bright := (dictLookup d redBN).getD ⟨0, 0, 0⟩
        green_bright := (dictLookup d greenBN).getD ⟨0, 0, 0⟩
        yellow_bright := (dictLookup d yellowBN).getD ⟨0, 0, 0⟩
        blue_bright := (dictLookup d blueBN).getD ⟨0, 0, 0⟩
        magenta_bright := (dictLookup d magentaBN).getD ⟨0, 0, 0⟩
        cyan_bright := (dictLookup d cyanBN).getD ⟨0, 0, 0⟩
        white_bright := (dictLookup d whiteBN).getD ⟨0, 0, 0⟩
        cursor := (dictLookup d cursorN).getD cursorDefault
        cursor_reverse := (dictLookup d cursorRevN).getD cursorReverseDefault }
  else .error .typeError

/-! ## The name-value (`nidx`) and delimited (`csv`) codecs -/

/-- Python's whitespace set `\s` / `str.split()` separators (ASCII range). -/
def isSpacePy (c : Char) : Bool :=
  c = ' ' || c = '\t' || c = '\n' || c = '\r' || c = '\x0b' || c = '\x0c'

def splitWsAux : List Char → List Char → List (List Char)
  | [], acc => if acc = [] then [] else [acc.reverse]
  | c :: t, acc =>
    if isSpacePy c then
      if acc = [] then splitWsAux t [] else acc.reverse :: splitWsAux t []
    else splitWsAux t (c :: acc)

/-- `str.split()` with no argument: split on whitespace runs, no empty
fields. -/
def splitWs (cs : List Char) : List (List Char) := splitWsAux cs []

def splitCommaAux : List Char → List Char → List (List Char)
  | [], acc => [acc.reverse]
  | c :: t, acc =>
    if c = ',' then acc.reverse :: splitCommaAux t [] else splitCommaAux t (c :: acc)

/-- `str.split(',')`: split at every comma, keeping empty fields. -/
def splitComma (cs : List Char) : List (List Char) := splitCommaAux cs []

/-- The loop of `read_nidx`: skip `#` comment lines, `name, hex =
line.split()` (a `ValueError` becomes the line-numbered format error),
collect `color_dict[name] = Color.parse(hex)`. -/
def nidxLoop : Nat → List (List Char) → Dict → Except Err Dict
  | _, [], d => .ok d
  | i, l :: ls, d =>
    if l.head? = some '#' then nidxLoop (i + 1) ls d
    else
      match splitWs l with
      | [name, hx] =>
        match Color.parse hx with
        | .ok c => nidxLoop (i + 1) ls (dictInsert d name c)
        | .error e => .error e
      | _ => .error (.formatError i)

/-- `read_nidx`. -/
def read_nidx (ls : List (List Char)) : Except Err Theme :=
  nidxLoop 0 ls [] >>= mkTheme

/-- The loop of `read_csv`, identical but splitting on `','`. -/
def csvLoop : Nat → List (List Char) → Dict → Except Err Dict
  | _, [], d => .ok d
  | i, l :: ls, d =>
    if l.head? = some '#' then csvLoop (i + 1) ls d
    else
      match splitComma l with
      | [name, hx] =>
        match Color.parse hx with
        | .ok c => csvLoop (i + 1) ls (dictInsert d name c)
        | .error e => .error e
      | _ => .error (.formatError i)

/-- `read_csv`. -/
def read_csv (ls : List (List Char)) : Except Err Theme :=
  csvLoop 0 ls [] >>= mkTheme

/-- The key order `write_nidx`/`write_csv` emit: foreground, background,
each canonical name interleaved with its bright variant, cursor,
cursor_reverse (the `keys` list their loops build). -/
def nidxKeys : List (List Char) :=
  [fgN, bgN,
   blackN, blackBN, redN, redBN, greenN, greenBN, yellowN, yellowBN,
   blueN, blueBN, magentaN, magentaBN, cyanN, cyanBN, whiteN, whiteBN,
   cursorN, cursorRevN]

/-- `getattr(theme, name)` for the 20 canonical names (the only names the
encoders pass; any other name would raise, modelled by the junk default). -/
def themeGet (t : Theme) (k : List Char) : Color :=
  if k = fgN then t.foreground
  else if k = bgN then t.background
  else if k = blackN then t.black
  else if k = redN then t.red
  else if k = greenN then t.green
  else if k = yellowN then t.yellow
  else if k = blueN then t.blue
  else if k = magentaN then t.magenta
  else if k = cyanN then t.cyan
  else if k = whiteN then t.white
  else if k = blackBN then t.black_bright
  else if k = redBN then t.red_bright
  else if k = greenBN then t.green_bright
  else if k = yellowBN then t.yellow_bright
  else if k = blueBN then t.blue_bright
  else if k = magentaBN then t.magenta_bright
  else if k = cyanBN then t.cyan_bright
  else if k = whiteBN then t.white_bright
  else if k = cursorN then t.cursor
  else t.cursor_reverse

/-- The (name, value) sequence the nidx/csv encoders write. -/
def nidxPairs (t : Theme) : List (List Char × Color) :=
  nidxKeys.map fun k => (k, themeGet t k)

/-- `write_nidx`: `print(f'{k} {c.hex()}')` per key. -/
def write_nidx (t : Theme) : List (List Char) :=
  (nidxPairs t).map fun p => p.1 ++ ' ' :: p.2.hex

/-- `write_csv`: `print(f'{k},{c.hex()}')` per key. -/
def write_csv (t : Theme) : List (List Char) :=
  (nidxPairs t).map fun p => p.1 ++ ',' :: p.2.hex

-- Sanity: a hand-written nidx input decodes, fields land in the right slots.
example :
    read_nidx ((["foreground #ffffff", "background #000000", "# comment",
      "black #000000", "red #ff0000", "green #00ff00", "yellow #ffff00",
      "blue #0000ff", "magenta #ff00ff", "cyan #00ffff", "white #aaaaaa",
      "black_bright #555555", "red_bright #ff5555", "green_bright #55ff55",
      "yellow_bright #ffff55", "blue_bright #5555ff", "magenta_bright #ff55ff",
      "cyan_bright #55ffff", "white_bright #ffffff"]).map String.toList)
      = .ok
        { foreground := ⟨255, 255, 255⟩, background := ⟨0, 0, 0⟩
          black := ⟨0, 0, 0⟩, red := ⟨255, 0, 0⟩, green := ⟨0, 255, 0⟩
          yellow := ⟨255, 255, 0⟩, blue := ⟨0, 0, 255⟩, magenta := ⟨255, 0, 255⟩
          cyan := ⟨0, 255, 255⟩, white := ⟨170, 170, 170⟩
          black_bright := ⟨85, 85, 85⟩, red_bright := ⟨255, 85, 85⟩
          green_bright := ⟨85, 255, 85⟩, yellow_bright := ⟨255, 255, 85⟩
          blue_bright := ⟨85, 85, 255⟩, magenta_bright := ⟨255, 85, 255⟩
          cyan_bright := ⟨85, 255, 255⟩, white_bright := ⟨255, 255, 255⟩
          cursor := cursorDefault, cursor_reverse := cursorReverseDefault } := by
  decide

/-! ## The embedded-config (`stconf`) codec -/

/-- The tail of the stconf regex, `"(#[0-9a-fA-F]{6}")`, applied at the
current position: a quote, `#`, six hex digits, a quote.  Returns group 2,
which includes the closing quote. -/
def quotedHex : List Char → Option (List Char)
  | '"' :: '#' :: d0 :: d1 :: d2 :: d3 :: d4 :: d5 :: '"' :: _ =>
    if (isHexDigit d0 && isHexDigit d1 && isHexDigit d2 &&
        isHexDigit d3 && isHexDigit d4 && isHexDigit d5) then
      some ('#' :: d0 :: d1 :: d2 :: d3 :: d4 :: d5 :: ['"'])
    else none
  | _ => none

/-- `re.search(r'(?:\[(\d+)\] += +)?"(#[0-9a-fA-F]{6}")', line)` applied at
one position: first with the optional `[index] = ` group (each greedy run —
digits, the two space runs — is followed by a character it cannot contain,
so the greedy parse is the only candidate), then without it. -/
def stconfMatchAt (cs : List Char) : Option (Option Nat × List Char) :=
  let bare := (quotedHex cs).map fun h => ((none : Option Nat), h)
  match cs with
  | '[' :: r1 =>
    let ds := r1.takeWhile isDigit
    if ds = [] then bare
    else
      match r1.drop ds.length with
      | ']' :: r2 =>
        let sp1 := r2.takeWhile fun c => c = ' '
        if sp1 = [] then bare
        else
          match r2.drop sp1.length with
          | '=' :: r3 =>
            let sp2 := r3.takeWhile fun c => c = ' '
            if sp2 = [] then bare
            else
              match quotedHex (r3.drop sp2.length) with
              | some h => some (some (digitsToNat ds), h)
              | none => bare
          | _ => bare
      | _ => bare
  | _ => bare

/-- The `re.search` position scan: leftmost position whose match succeeds. -/
def stconfSearch : List Char → Option (Option Nat × List Char)
  | [] => stconfMatchAt []
  | c :: t =>
    match stconfMatchAt (c :: t) with
    | some r => some r
    | none => stconfSearch t

/-- `color_for`: `NAME_FOR` extended with `256 → background`,
`257 → foreground`. -/
def stconfColorFor (i : Nat) : Option (List Char) :=
  if i = 256 then some bgN
  else if i = 257 then some fgN
  else NAME_FOR.get? i

/-- The loop of `read_stconf`: skip `//` lines (Python's `continue` also
skips the `i > 257` break check, which is immaterial since the loop is never
re-entered with `i > 257`); on a match, an explicit `[n]` resets the running
index before recording; `color_for[i]` misses raise `KeyError`; after a
non-`continue` iteration the loop breaks once the running index exceeds
257. -/
def stconfLoop : Nat → List (List Char) → Dict → Except Err Dict
  | _, [], d => .ok d
  | i, l :: ls, d =>
    if l.take 2 = ['/', '/'] then stconfLoop i ls d
    else
      match stconfSearch l with
      | some (numOpt, hx) =>
        let i1 := match numOpt with | some n => n | none => i
        match Color.parse hx with
        | .error e => .error e
        | .ok c =>
          match stconfColorFor i1 with
          | none => .error .keyError
          | some name =>
            if i1 + 1 > 257 then .ok (dictInsert d name c)
            else stconfLoop (i1 + 1) ls (dictInsert d name c)
      | none => if i > 257 then .ok d else stconfLoop i ls d

/-- `read_stconf`. -/
def read_stconf (ls : List (List Char)) : Except Err Theme :=
  stconfLoop 0 ls [] >>= mkTheme

/-- The text after the closing quote of a `write_stconf` color line:
`,  /* {name} */`. -/
def stconfTail (name : List Char) : List Char :=
  ',' :: ' ' :: ' ' :: '/' :: '*' :: ' ' :: name ++ [' ', '*', '/']

/-- One color line of `write_stconf`:
`f'[{i}] = "{color.hex()}",  /* {name} */'`. -/
def stconfLine (i : List Char) (c : Color) (name : List Char) : List Char :=
  '[' :: (i ++ (']' :: ' ' :: '=' :: ' ' :: ('"' :: (c.hex ++ ('"' :: stconfTail name)))))

/-- `write_stconf`, its two loops unrolled (`i` counts 0–15 across them). -/
def write_stconf (t : Theme) : List (List Char) :=
  ["/* 8 normal colors */".toList,
   stconfLine ['0'] t.black blackN,
   stconfLine ['1'] t.red redN,
   stconfLine ['2'] t.green greenN,
   stconfLine ['3'] t.yellow yellowN,
   stconfLine ['4'] t.blue blueN,
   stconfLine ['5'] t.magenta magentaN,
   stconfLine ['6'] t.cyan cyanN,
   stconfLine ['7'] t.white whiteN,
   [],
   "/* 8 bright colors */".toList,
   stconfLine ['8'] t.black_bright blackBN,
   stconfLine ['9'] t.red_bright redBN,
   stconfLine ['1', '0'] t.green_bright greenBN,
   stconfLine ['1', '1'] t.yellow_bright yellowBN,
   stconfLine ['1', '2'] t.blue_bright blueBN,
   stconfLine ['1', '3'] t.magenta_bright magentaBN,
   stconfLine ['1', '4'] t.cyan_bright cyanBN,
   stconfLine ['1', '5'] t.white_bright whiteBN,
   [],
   "/* special colors */".toList,
   stconfLine ['2', '5', '6'] t.background bgN,
   stconfLine ['2', '5', '7'] t.foreground fgN]

-- Sanity: decoding an stconf fragment, explicit indices and running index.
example :
    read_stconf ((["/* 8 normal colors */",
      "[0] = \"#000000\",  /* black */",
      "\"#ff0000\",",
      "\"#00ff00\",",
      "\"#ffff00\",",
      "\"#0000ff\",",
      "\"#ff00ff\",",
      "\"#00ffff\",",
      "\"#aaaaaa\",",
      "[8] = \"#555555\",",
      "\"#ff5555\",",
      "\"#55ff55\",",
      "\"#ffff55\",",
      "\"#5555ff\",",
      "\"#ff55ff\",",
      "\"#55ffff\",",
      "\"#ffffff\",",
      "[256] = \"#101010\",",
      "\"#fefefe\",",
      "[999] = \"#deadXX\", trailing garbage that must be ignored"]).map
        String.toList)
      = .ok
        { foreground := ⟨254, 254, 254⟩, background := ⟨16, 16, 16⟩
          black := ⟨0, 0, 0⟩, red := ⟨255, 0, 0⟩, green := ⟨0, 255, 0⟩
          yellow := ⟨255, 255, 0⟩, blue := ⟨0, 0, 255⟩, magenta := ⟨255, 0, 255⟩
          cyan := ⟨0, 255, 255⟩, white := ⟨170, 170, 170⟩
          black_bright := ⟨85, 85, 85⟩, red_bright := ⟨255, 85, 85⟩
          green_bright := ⟨85, 255, 85⟩, yellow_bright := ⟨255, 255, 85⟩
          blue_bright := ⟨85, 85, 255⟩, magenta_bright := ⟨255, 85, 255⟩
          cyan_bright := ⟨85, 255, 255⟩, white_bright := ⟨255, 255, 255⟩
          cursor := cursorDefault, cursor_reverse := cursorReverseDefault } := by
  decide

/-! ## The X-resources (`xres`) codec -/

/-- `label.startswith('color')` etc. -/
def listStartsWith : List Char → List Char → Bool
  | [], _ => true
  | _ :: _, [] => false
  | p :: ps, c :: cs => p = c && listStartsWith ps cs

/-- A run of decimal digits with Python's underscore rule (single
underscores strictly between digits), as `int()` accepts after stripping:
nonempty, starts and ends with a digit, every character a digit or `'_'`,
no two consecutive underscores. -/
def digitRunVal : List Char → Option Nat
  | [] => none
  | cs =>
    if cs.head?.any isDigit && (cs.getLast?.any isDigit) &&
       cs.all (fun c => isDigit c || c = '_') &&
       !(cs.zip cs.tail).any (fun p => p.1 = '_' && p.2 = '_') then
      some (digitsToNat (cs.filter isDigit))
    else none

/-- Python `int(s)` (ASCII model): strip whitespace, optional sign, digit
run with optional single underscores. -/
def pyInt (s : List Char) : Option Int :=
  let t := ((s.dropWhile isSpacePy).reverse.dropWhile isSpacePy).reverse
  match t with
  | '+' :: u => (digitRunVal u).map fun n => (n : Int)
  | '-' :: u => (digitRunVal u).map fun n => -(n : Int)
  | u => (digitRunVal u).map fun n => (n : Int)

/-- `NAME_FOR[num]` with an `int` key. -/
def nameForInt (n : Int) : Option (List Char) :=
  if n < 0 then none else NAME_FOR.get? n.toNat

/-- `re.sub(r'.*[.*]', '', label)`: the greedy `.*` makes this drop
everything up to and including the last `'.'` or `'*'` (an unmatched label
is left unchanged). -/
def reduceLabel (cs : List Char) : List Char :=
  (cs.reverse.takeWhile fun c => !(c = '.' || c = '*')).reverse

/-- The tail of the xres regex, ` *(#[a-fA-F0-9]{6})`, after the colon:
greedy spaces (forced: the group must start with `'#'`), then group 2. -/
def spacesThenHex (cs : List Char) : Option (List Char) :=
  match cs.dropWhile (fun c => c = ' ') with
  | '#' :: d0 :: d1 :: d2 :: d3 :: d4 :: d5 :: _ =>
    if (isHexDigit d0 && isHexDigit d1 && isHexDigit d2 &&
        isHexDigit d3 && isHexDigit d4 && isHexDigit d5) then
      some ('#' :: d0 :: d1 :: d2 :: d3 :: d4 :: [d5])
    else none
  | _ => none

/-- `re.search(r'([^:]+): *(#[a-fA-F0-9]{6})', line)` at one position: the
greedy `[^:]+` must stop exactly at the first colon, which it cannot
contain. -/
def xresMatchAt (cs : List Char) : Option (List Char × List Char) :=
  let label := cs.takeWhile fun c => !(c = ':')
  if label = [] then none
  else
    match cs.drop label.length with
    | ':' :: rest => (spacesThenHex rest).map fun h => (label, h)
    | _ => none

/-- The `re.search` position scan for the xres line regex. -/
def xresSearch : List Char → Option (List Char × List Char)
  | [] => xresMatchAt []
  | c :: t =>
    match xresMatchAt (c :: t) with
    | some r => some r
    | none => xresSearch t

/-- `re.search(r'^\s*$', line)`: the line is whitespace only. -/
def isBlank (l : List Char) : Bool := l.all isSpacePy

def cursorColorN : List Char := "cursorColor".toList

/-- The loop of `read_xres`: skip `!`-comment and blank lines; a line the
regex rejects is a hard error; otherwise reduce the label past the last
`*`/`.`, parse the color, and dispatch on the label — `foreground`/
`background` direct, `cursorColor → cursor`, `color…` through `int()` and
`NAME_FOR`, anything else silently dropped. -/
def xresLoop : List (List Char) → Dict → Except Err Dict
  | [], d => .ok d
  | l :: ls, d =>
    if l.head? = some '!' || isBlank l then xresLoop ls d
    else
      match xresSearch l with
      | none => .error (.lineFormatError l)
      | some (label0, hx) =>
        let label := reduceLabel label0
        match Color.parse hx with
        | .error e => .error e
        | .ok c =>
          if label = fgN || label = bgN then xresLoop ls (dictInsert d label c)
          else if label = cursorColorN then xresLoop ls (dictInsert d cursorN c)
          else if listStartsWith "color".toList label then
            match pyInt (label.drop 5) with
            | none => .error .valueError
            | some n =>
              match nameForInt n with
              | none => .error .keyError
              | some name => xresLoop ls (dictInsert d name c)
          else xresLoop ls d

/-- `read_xres`. -/
def read_xres (ls : List (List Char)) : Except Err Theme :=
  xresLoop ls [] >>= mkTheme

/-- `f'{label:16s}'`: left-justified padding to width 16. -/
def padTo16 (s : List Char) : List Char := s ++ List.replicate (16 - s.length) ' '

/-- One line of `write_xres`'s `print_color`: `f'{label:16s}{color.hex()}'`
with `label = f'*.{name}:'`. -/
def xresLine (name : List Char) (c : Color) : List Char :=
  padTo16 ('*' :: '.' :: name ++ [':']) ++ c.hex

/-- `write_xres`, loops unrolled. -/
def write_xres (t : Theme) : List (List Char) :=
  ["! special".toList,
   xresLine fgN t.foreground,
   xresLine bgN t.background,
   xresLine cursorColorN t.cursor,
   [], '!' :: ' ' :: blackN,
   xresLine "color0".toList t.black,
   xresLine "color8".toList t.black_bright,
   [], '!' :: ' ' :: redN,
   xresLine "color1".toList t.red,
   xresLine "color9".toList t.red_bright,
   [], '!' :: ' ' :: greenN,
   xresLine "color2".toList t.green,
   xresLine "color10".toList t.green_bright,
   [], '!' :: ' ' :: yellowN,
   xresLine "color3".toList t.yellow,
   xresLine "color11".toList t.yellow_bright,
   [], '!' :: ' ' :: blueN,
   xresLine "color4".toList t.blue,
   xresLine "color12".toList t.blue_bright,
   [], '!' :: ' ' :: magentaN,
   xresLine "color5".toList t.magenta,
   xresLine "color13".toList t.magenta_bright,
   [], '!' :: ' ' :: cyanN,
   xresLine "color6".toList t.cyan,
   xresLine "color14".toList t.cyan_bright,
   [], '!' :: ' ' :: whiteN,
   xresLine "color7".toList t.white,
   xresLine "color15".toList t.white_bright]

-- Sanity: labels reduce past the last '*'/'.'; unknown labels are dropped;
-- cursorColor feeds the cursor slot.
example :
    xresLoop (["URxvt*background: #010203", "! comment", "   ",
      "fancy.widget.someOther: #999999", "*.cursorColor:  #040506"].map
        String.toList) []
      = .ok [(bgN, ⟨1, 2, 3⟩), (cursorN, ⟨4, 5, 6⟩)] := by decide
example :
    xresLoop (["color12: #0a0b0c"].map String.toList) []
      = .ok [(blueBN, ⟨10, 11, 12⟩)] := by decide
example :
    xresLoop (["color16: #0a0b0c"].map String.toList) [] = .error .keyError := by
  decide
example :
    xresLoop (["colorful: #0a0b0c"].map String.toList) [] = .error .valueError := by
  decide
example :
    xresLoop (["no hex here"].map String.toList) []
      = .error (.lineFormatError "no hex here".toList) := by decide

/-! ## The structured-document (`yaml`) decoders

`yaml.safe_load` is external; we model the decoders on the already-parsed
document: a tree of string-keyed tables with string leaves (the only two
shapes the program's accesses distinguish). -/

inductive YVal where
  | str : List Char → YVal
  | map : List (List Char × YVal) → YVal

/-- Top-level parsed document: a table. -/
abbrev YDoc := List (List Char × YVal)

def lookupY : YDoc → List Char → Option YVal
  | [], _ => none
  | (k, v) :: t, key => if k = key then some v else lookupY t key

/-- Substring test, for Python's `key in value` when `value` is a `str`. -/
def isInfixChars : List Char → List Char → Bool
  | p, [] => p = []
  | p, c :: t => listStartsWith p (c :: t) || isInfixChars p t

/-- Python `k in v`: key membership for a dict, substring test for a str. -/
def pyIn (k : List Char) : YVal → Bool
  | .str s => isInfixChars k s
  | .map m => (lookupY m k).isSome

/-- `v[key]` for a parsed-yaml value: `KeyError` on a missing table key,
`TypeError` when `v` is a string (string subscripts must be ints). -/
def ySub (v : YVal) (k : List Char) : Except Err YVal :=
  match v with
  | .str _ => .error .typeError
  | .map m =>
    match lookupY m k with
    | some u => .ok u
    | none => .error .keyError

/-- `Color.parse(v)` where `v` came out of the document: `re.match` raises
`TypeError` on a non-string. -/
def parseYVal (v : YVal) : Except Err Color :=
  match v with
  | .str s => Color.parse s
  | .map _ => .error .typeError

/-- `Color.parse(doc[k])` for a top-level key. -/
def goghColor (doc : YDoc) (k : List Char) : Except Err Color :=
  match lookupY doc k with
  | none => .error .keyError
  | some v => parseYVal v

/-- `read_yaml_gogh`: keys `color_01`..`color_16` accessed in the loop's
interleaved order, then `foreground`, `background`, `cursor`; the collected
dict is passed to `Theme(**·)`. -/
def read_yaml_gogh (doc : YDoc) : Except Err Theme := do
  let cBlack ← goghColor doc "color_01".toList
  let cBlackB ← goghColor doc "color_09".toList
  let cRed ← goghColor doc "color_02".toList
  let cRedB ← goghColor doc "color_10".toList
  let cGreen ← goghColor doc "color_03".toList
  let cGreenB ← goghColor doc "color_11".toList
  let cYellow ← goghColor doc "color_04".toList
  let cYellowB ← goghColor doc "color_12".toList
  let cBlue ← goghColor doc "color_05".toList
  let cBlueB ← goghColor doc "color_13".toList
  let cMagenta ← goghColor doc "color_06".toList
  let cMagentaB ← goghColor doc "color_14".toList
  let cCyan ← goghColor doc "color_07".toList
  let cCyanB ← goghColor doc "color_15".toList
  let cWhite ← goghColor doc "color_08".toList
  let cWhiteB ← goghColor doc "color_16".toList
  let cFg ← goghColor doc fgN
  let cBg ← goghColor doc bgN
  let cCur ← goghColor doc cursorN
  mkTheme
    [(blackN, cBlack), (blackBN, cBlackB), (redN, cRed), (redBN, cRedB),
     (greenN, cGreen), (greenBN, cGreenB), (yellowN, cYellow), (yellowBN, cYellowB),
     (blueN, cBlue), (blueBN, cBlueB), (magentaN, cMagenta), (magentaBN, cMagentaB),
     (cyanN, cCyan), (cyanBN, cCyanB), (whiteN, cWhite), (whiteBN, cWhiteB),
     (fgN, cFg), (bgN, cBg), (cursorN, cCur)]

/-- `Color.parse(doc['colors'][section][name])`. -/
def alacrittyColor (doc : YDoc) (sect name : List Char) : Except Err Color := do
  let colors ← ySub (.map doc) "colors".toList
  let sec ← ySub colors sect
  let v ← ySub sec name
  parseYVal v

/-- `read_yaml_alacritty`: `colors.primary.{foreground,background}`, then
the 8 names against `colors.normal` and `colors.bright`, interleaved. -/
def read_yaml_alacritty (doc : YDoc) : Except Err Theme := do
  let cFg ← alacrittyColor doc "primary".toList fgN
  let cBg ← alacrittyColor doc "primary".toList bgN
  let cBlack ← alacrittyColor doc "normal".toList blackN
  let cBlackB ← alacrittyColor doc "bright".toList blackN
  let cRed ← alacrittyColor doc "normal".toList redN
  let cRedB ← alacrittyColor doc "bright".toList redN
  let cGreen ← alacrittyColor doc "normal".toList greenN
  let cGreenB ← alacrittyColor doc "bright".toList greenN
  let cYellow ← alacrittyColor doc "normal".toList yellowN
  let cYellowB ← alacrittyColor doc "bright".toList yellowN
  let cBlue ← alacrittyColor doc "normal".toList blueN
  let cBlueB ← alacrittyColor doc "bright".toList blueN
  let cMagenta ← alacrittyColor doc "normal".toList magentaN
  let cMagentaB ← alacrittyColor doc "bright".toList magentaN
  let cCyan ← alacrittyColor doc "normal".toList cyanN
  let cCyanB ← alacrittyColor doc "bright".toList cyanN
  let cWhite ← alacrittyColor doc "normal".toList whiteN
  let cWhiteB ← alacrittyColor doc "bright".toList whiteN
  mkTheme
    [(fgN, cFg), (bgN, cBg),
     (blackN, cBlack), (blackBN, cBlackB), (redN, cRed), (redBN, cRedB),
     (greenN, cGreen), (greenBN, cGreenB), (yellowN, cYellow), (yellowBN, cYellowB),
     (blueN, cBlue), (blueBN, cBlueB), (magentaN, cMagenta), (magentaBN, cMagentaB),
     (cyanN, cCyan), (cyanBN, cCyanB), (whiteN, cWhite), (whiteBN, cWhiteB)]

/-- `read_yaml`'s dispatcher: `'color_01' in doc` picks the gogh decoder;
otherwise `'colors' in doc and 'primary' in doc['colors']` picks the
alacritty decoder; otherwise `ValueError('unexpected yaml format')`. -/
def read_yaml (doc : YDoc) : Except Err Theme :=
  if (lookupY doc "color_01".toList).isSome then read_yaml_gogh doc
  else if (match lookupY doc "colors".toList with
           | some v => pyIn "primary".toList v
           | none => false) then read_yaml_alacritty doc
  else .error .yamlError

/-! ## The terminal-control (`osc`) encoder -/

/-- Decimal rendering of `f'{i}'`. -/
def natChars (n : Nat) : List Char := Nat.toDigits 10 n

/-- `f'\033]4;{i};{c.hex()}\007'`. -/
def osc4 (i : Nat) (c : Color) : List Char :=
  (('\x1b' :: ']' :: '4' :: ';' :: natChars i) ++ (';' :: c.hex)) ++ ['\x07']

/-- `f'\033]{n};{c.hex()}\007'` for the OSC 10/11/12 forms. -/
def oscN (n : Nat) (c : Color) : List Char :=
  (('\x1b' :: ']' :: natChars n) ++ (';' :: c.hex)) ++ ['\x07']

/-- The 19 escape sequences `write_osc` prints, in its emission order: the
loop interleaves each normal index `i` with its bright partner `i+8`, then
OSC 10 foreground, OSC 11 background, OSC 12 cursor. -/
def oscSeqs (t : Theme) : List (List Char) :=
  [osc4 0 t.black, osc4 8 t.black_bright,
   osc4 1 t.red, osc4 9 t.red_bright,
   osc4 2 t.green, osc4 10 t.green_bright,
   osc4 3 t.yellow, osc4 11 t.yellow_bright,
   osc4 4 t.blue, osc4 12 t.blue_bright,
   osc4 5 t.magenta, osc4 13 t.magenta_bright,
   osc4 6 t.cyan, osc4 14 t.cyan_bright,
   osc4 7 t.white, osc4 15 t.white_bright,
   oscN 10 t.foreground, oscN 11 t.background, oscN 12 t.cursor]

/-- `write_osc`: the sequences concatenated with `end=''` (no separators). -/
def write_osc (t : Theme) : List Char := (oscSeqs t).foldr (· ++ ·) []

/-- Modelled from the spec for claim C5's comparison: the palette sequences
emitted "per ANSI palette index 0-15 in canonical order (normal then
bright)", i.e. indices strictly in the order 0,1,…,15, then OSC 10/11/12. -/
def write_osc_specOrder (t : Theme) : List Char :=
  ([osc4 0 t.black, osc4 1 t.red, osc4 2 t.green, osc4 3 t.yellow,
    osc4 4 t.blue, osc4 5 t.magenta, osc4 6 t.cyan, osc4 7 t.white,
    osc4 8 t.black_bright, osc4 9 t.red_bright, osc4 10 t.green_bright,
    osc4 11 t.yellow_bright, osc4 12 t.blue_bright, osc4 13 t.magenta_bright,
    osc4 14 t.cyan_bright, osc4 15 t.white_bright,
    oscN 10 t.foreground, oscN 11 t.background, oscN 12 t.cursor] :
      List (List Char)).foldr (· ++ ·) []

/-! ## Helper lemmas: lists -/

theorem takeWhile_append_stop {p : Char → Bool} :
    ∀ (xs : List Char) {y : Char} (ys : List Char), (∀ c ∈ xs, p c = true) →
      p y = false → (xs ++ y :: ys).takeWhile p = xs := by
  intro xs
  induction xs with
  | nil => intro y ys _ hy; simp [List.takeWhile, hy]
  | cons a t ih =>
    intro y ys hx hy
    have ha : p a = true := hx a (by simp)
    simp only [List.cons_append, List.takeWhile, ha]
    exact congrArg (a :: ·) (ih ys (fun c hc => hx c (by simp [hc])) hy)

theorem drop_len_append : ∀ (xs ys : List Char), (xs ++ ys).drop xs.length = ys := by
  intro xs
  induction xs with
  | nil => simp
  | cons a t ih => simp [ih]

theorem dropWhile_append_stop {p : Char → Bool} :
    ∀ (xs ys : List Char), (∀ c ∈ xs, p c = true) →
      (∀ h ∈ ys.head?, p h = false) → (xs ++ ys).dropWhile p = ys := by
  intro xs
  induction xs with
  | nil =>
    intro ys _ hy
    cases ys with
    | nil => rfl
    | cons b t =>
      have : p b = false := hy b (by simp)
      simp [List.dropWhile, this]
  | cons a t ih =>
    intro ys hx hy
    have ha : p a = true := hx a (by simp)
    simp only [List.cons_append, List.dropWhile, ha]
    exact ih ys (fun c hc => hx c (by simp [hc])) hy

/-! ## Helper lemmas: hex digits and `Color.hex`/`Color.parse` -/

/-- The lowercase hex alphabet `Nat.digitChar` emits on `0..15`. -/
def lowHexDigits : List Char := "0123456789abcdef".toList

theorem digitChar_facts {x : Nat} (h : x < 16) :
    isHexDigit (Nat.digitChar x) = true ∧ hexVal (Nat.digitChar x) = x ∧
      Nat.digitChar x ∈ lowHexDigits := by
  interval_cases x <;> exact ⟨by decide, by decide, by decide⟩

theorem hex02_eq {n : Nat} (h : n ≤ 255) :
    hex02 n = [Nat.digitChar (n / 16), Nat.digitChar (n % 16)] := by
  simp [hex02, h]

theorem hex_explicit {c : Color} (h : c.valid) :
    c.hex = ['#', Nat.digitChar (c.r / 16), Nat.digitChar (c.r % 16),
      Nat.digitChar (c.g / 16), Nat.digitChar (c.g % 16),
      Nat.digitChar (c.b / 16), Nat.digitChar (c.b % 16)] := by
  obtain ⟨hr, hg, hb⟩ := h
  simp [Color.hex, hex02_eq hr, hex02_eq hg, hex02_eq hb]

theorem parse_hex_append {c : Color} (h : c.valid) (rest : List Char) :
    Color.parse (c.hex ++ rest) = .ok c := by
  obtain ⟨hr, hg, hb⟩ := h
  have h1 := digitChar_facts (x := c.r / 16) (by omega)
  have h2 := digitChar_facts (x := c.r % 16) (by omega)
  have h3 := digitChar_facts (x := c.g / 16) (by omega)
  have h4 := digitChar_facts (x := c.g % 16) (by omega)
  have h5 := digitChar_facts (x := c.b / 16) (by omega)
  have h6 := digitChar_facts (x := c.b % 16) (by omega)
  have hcol : colorOfHex (Nat.digitChar (c.r / 16)) (Nat.digitChar (c.r % 16))
      (Nat.digitChar (c.g / 16)) (Nat.digitChar (c.g % 16))
      (Nat.digitChar (c.b / 16)) (Nat.digitChar (c.b % 16)) = c := by
    unfold colorOfHex
    rw [h1.2.1, h2.2.1, h3.2.1, h4.2.1, h5.2.1, h6.2.1]
    have er : 16 * (c.r / 16) + c.r % 16 = c.r := by omega
    have eg : 16 * (c.g / 16) + c.g % 16 = c.g := by omega
    have eb : 16 * (c.b / 16) + c.b % 16 = c.b := by omega
    rw [er, eg, eb]
  rw [hex_explicit ⟨hr, hg, hb⟩]
  simp [Color.parse, parseHex6, h1.1, h2.1, h3.1, h4.1, h5.1, h6.1, hcol]

theorem parse_hex {c : Color} (h : c.valid) : Color.parse c.hex = .ok c := by
  have := parse_hex_append h []
  simpa using this

theorem hex_mem_charset {c : Color} (h : c.valid) :
    ∀ ch ∈ c.hex, ch ∈ '#' :: lowHexDigits := by
  obtain ⟨hr, hg, hb⟩ := h
  rw [hex_explicit ⟨hr, hg, hb⟩]
  intro ch hch
  simp only [List.mem_cons, List.not_mem_nil, or_false] at hch
  rcases hch with rfl | rfl | rfl | rfl | rfl | rfl | rfl
  · simp
  · exact List.mem_cons_of_mem _ (digitChar_facts (by omega)).2.2
  · exact List.mem_cons_of_mem _ (digitChar_facts (by omega)).2.2
  · exact List.mem_cons_of_mem _ (digitChar_facts (by omega)).2.2
  · exact List.mem_cons_of_mem _ (digitChar_facts (by omega)).2.2
  · exact List.mem_cons_of_mem _ (digitChar_facts (by omega)).2.2
  · exact List.mem_cons_of_mem _ (digitChar_facts (by omega)).2.2

theorem charset_props :
    ∀ ch ∈ ('#' :: lowHexDigits), isSpacePy ch = false ∧ ch ≠ ',' ∧ ch ≠ ':' ∧
      ch ≠ '"' ∧ ch ≠ '\x07' ∧ ch ≠ '.' ∧ ch ≠ '*' := by decide

theorem hex_not_space {c : Color} (h : c.valid) :
    ∀ ch ∈ c.hex, isSpacePy ch = false :=
  fun ch hc => (charset_props ch (hex_mem_charset h ch hc)).1

theorem hex_ne_comma {c : Color} (h : c.valid) : ∀ ch ∈ c.hex, ch ≠ ',' :=
  fun ch hc => (charset_props ch (hex_mem_charset h ch hc)).2.1

theorem hex_head (c : Color) : c.hex.head? = some '#' := rfl

theorem hex_ne_nil (c : Color) : c.hex ≠ [] := by simp [Color.hex]

/-! ## Helper lemmas: the two split functions on encoded lines -/

theorem splitWsAux_skip (w : List Char) :
    ∀ (rest acc : List Char), (∀ c ∈ w, isSpacePy c = false) →
      splitWsAux (w ++ rest) acc = splitWsAux rest (w.reverse ++ acc) := by
  induction w with
  | nil => intro rest acc _; simp
  | cons a t ih =>
    intro rest acc hw
    have ha : isSpacePy a = false := hw a (by simp)
    simp only [List.cons_append, splitWsAux, ha, Bool.false_eq_true, if_false,
      List.reverse_cons]
    rw [List.append_eq, ih rest (a :: acc) (fun c hc => hw c (by simp [hc]))]
    simp

theorem splitWsAux_word :
    ∀ (v acc : List Char), (∀ c ∈ v, isSpacePy c = false) →
      (v ≠ [] ∨ acc ≠ []) → splitWsAux v acc = [acc.reverse ++ v] := by
  intro v
  induction v with
  | nil =>
    intro acc _ h
    have hacc : acc ≠ [] := by
      rcases h with h | h
      · exact absurd rfl h
      · exact h
    simp [splitWsAux, hacc]
  | cons a t ih =>
    intro acc hc _
    have ha : isSpacePy a = false := hc a (by simp)
    simp only [splitWsAux, ha, Bool.false_eq_true, if_false]
    rw [ih (a :: acc) (fun c hc' => hc c (by simp [hc'])) (Or.inr (by simp))]
    simp

theorem splitWs_pair (w v : List Char) (hw : w ≠ []) (hv : v ≠ [])
    (hwc : ∀ c ∈ w, isSpacePy c = false) (hvc : ∀ c ∈ v, isSpacePy c = false) :
    splitWs (w ++ ' ' :: v) = [w, v] := by
  unfold splitWs
  rw [splitWsAux_skip w (' ' :: v) [] hwc]
  have hwr : ¬(w.reverse ++ [] = []) := by simp [hw]
  simp only [splitWsAux, show isSpacePy ' ' = true from rfl, if_true, hwr, if_false]
  rw [splitWsAux_word v [] hvc (Or.inl hv)]
  simp

theorem splitCommaAux_skip (w : List Char) :
    ∀ (rest acc : List Char), (∀ c ∈ w, c ≠ ',') →
      splitCommaAux (w ++ rest) acc = splitCommaAux rest (w.reverse ++ acc) := by
  induction w with
  | nil => intro rest acc _; simp
  | cons a t ih =>
    intro rest acc hw
    have ha : ¬(a = ',') := hw a (by simp)
    simp only [List.cons_append, splitCommaAux, ha, if_false, List.reverse_cons]
    rw [List.append_eq, ih rest (a :: acc) (fun c hc => hw c (by simp [hc]))]
    simp

theorem splitCommaAux_word :
    ∀ (v acc : List Char), (∀ c ∈ v, c ≠ ',') →
      splitCommaAux v acc = [acc.reverse ++ v] := by
  intro v
  induction v with
  | nil => intro acc _; simp [splitCommaAux]
  | cons a t ih =>
    intro acc hc
    have ha : ¬(a = ',') := hc a (by simp)
    simp only [splitCommaAux, ha, if_false]
    rw [ih (a :: acc) (fun c hc' => hc c (by simp [hc']))]
    simp

theorem splitComma_pair (w v : List Char)
    (hwc : ∀ c ∈ w, c ≠ ',') (hvc : ∀ c ∈ v, c ≠ ',') :
    splitComma (w ++ ',' :: v) = [w, v] := by
  unfold splitComma
  rw [splitCommaAux_skip w (',' :: v) [] hwc]
  simp only [splitCommaAux, if_pos rfl, if_true]
  rw [splitCommaAux_word v [] hvc]
  simp

/-! ## The nidx/csv round trips -/

/-- Keys the nidx/csv encoders emit: nonempty, not comment-starting, free of
separators. -/
def plainKey : List Char → Bool
  | [] => false
  | a :: t =>
    a != '#' && (a :: t).all fun c => !isSpacePy c && c != ',' && c != ':'

theorem plainKey_props {k : List Char} (h : plainKey k = true) :
    k ≠ [] ∧ k.head? ≠ some '#' ∧
      ∀ c ∈ k, isSpacePy c = false ∧ c ≠ ',' ∧ c ≠ ':' := by
  cases k with
  | nil => exact absurd h (by simp [plainKey])
  | cons a t =>
    simp only [plainKey, Bool.and_eq_true, List.all_eq_true, bne_iff_ne] at h
    obtain ⟨hhd, hall⟩ := h
    refine ⟨by simp, by simpa using hhd, fun c hc => ?_⟩
    have := hall c hc
    simp only [Bool.and_eq_true, Bool.not_eq_eq_eq_not, Bool.not_true,
      bne_iff_ne] at this
    exact ⟨this.1.1, this.1.2, this.2⟩

theorem nidxLoop_cons_two (i : Nat) (ls : List (List Char)) (d : Dict)
    (l name hx : List Char) (hh : ¬(l.head? = some '#'))
    (hs : splitWs l = [name, hx]) :
    nidxLoop i (l :: ls) d
      = match Color.parse hx with
        | .ok c => nidxLoop (i + 1) ls (dictInsert d name c)
        | .error e => .error e := by
  simp only [nidxLoop]
  rw [if_neg hh, hs]

theorem csvLoop_cons_two (i : Nat) (ls : List (List Char)) (d : Dict)
    (l name hx : List Char) (hh : ¬(l.head? = some '#'))
    (hs : splitComma l = [name, hx]) :
    csvLoop i (l :: ls) d
      = match Color.parse hx with
        | .ok c => csvLoop (i + 1) ls (dictInsert d name c)
        | .error e => .error e := by
  simp only [csvLoop]
  rw [if_neg hh, hs]

theorem nidxLoop_enc (ps : List (List Char × Color)) :
    ∀ (i : Nat) (d : Dict), (∀ p ∈ ps, plainKey p.1 = true ∧ p.2.valid) →
      nidxLoop i (ps.map fun p => p.1 ++ ' ' :: p.2.hex) d
        = .ok (ps.foldl (fun d p => dictInsert d p.1 p.2) d) := by
  induction ps with
  | nil => intro i d _; rfl
  | cons p t ih =>
    intro i d hall
    obtain ⟨hk, hc⟩ := hall p (by simp)
    obtain ⟨hne, hhd, hchars⟩ := plainKey_props hk
    have hhead : ¬((p.1 ++ ' ' :: p.2.hex).head? = some '#') := by
      cases hp1 : p.1 with
      | nil => exact absurd hp1 hne
      | cons a t' => rw [hp1] at hhd; simpa using hhd
    rw [List.map_cons,
      nidxLoop_cons_two i _ d _ p.1 p.2.hex hhead
        (splitWs_pair p.1 p.2.hex hne (hex_ne_nil p.2)
          (fun c hc' => (hchars c hc').1) (hex_not_space hc)),
      parse_hex hc, List.foldl_cons]
    exact ih (i + 1) (dictInsert d p.1 p.2) fun q hq => hall q (by simp [hq])

theorem csvLoop_enc (ps : List (List Char × Color)) :
    ∀ (i : Nat) (d : Dict), (∀ p ∈ ps, plainKey p.1 = true ∧ p.2.valid) →
      csvLoop i (ps.map fun p => p.1 ++ ',' :: p.2.hex) d
        = .ok (ps.foldl (fun d p => dictInsert d p.1 p.2) d) := by
  induction ps with
  | nil => intro i d _; rfl
  | cons p t ih =>
    intro i d hall
    obtain ⟨hk, hc⟩ := hall p (by simp)
    obtain ⟨hne, hhd, hchars⟩ := plainKey_props hk
    have hhead : ¬((p.1 ++ ',' :: p.2.hex).head? = some '#') := by
      cases hp1 : p.1 with
      | nil => exact absurd hp1 hne
      | cons a t' => rw [hp1] at hhd; simpa using hhd
    rw [List.map_cons,
      csvLoop_cons_two i _ d _ p.1 p.2.hex hhead
        (splitComma_pair p.1 p.2.hex
          (fun c hc' => (hchars c hc').2.1) (hex_ne_comma hc)),
      parse_hex hc, List.foldl_cons]
    exact ih (i + 1) (dictInsert d p.1 p.2) fun q hq => hall q (by simp [hq])

theorem nidxKeys_plain : ∀ k ∈ nidxKeys, plainKey k = true := by decide

theorem themeGet_valid (t : Theme) (ht : t.valid) :
    ∀ k ∈ nidxKeys, (themeGet t k).valid := by
  obtain ⟨v1, v2, v3, v4, v5, v6, v7, v8, v9, v10, v11, v12, v13, v14, v15,
    v16, v17, v18, v19, v20⟩ := ht
  intro k hk
  fin_cases hk <;>
    first
    | exact v1 | exact v2 | exact v3 | exact v4 | exact v5
    | exact v6 | exact v7 | exact v8 | exact v9 | exact v10
    | exact v11 | exact v12 | exact v13 | exact v14 | exact v15
    | exact v16 | exact v17 | exact v18 | exact v19 | exact v20

theorem nidxPairs_plain (t : Theme) (ht : t.valid) :
    ∀ p ∈ nidxPairs t, plainKey p.1 = true ∧ p.2.valid := by
  intro p hp
  obtain ⟨k, hk, rfl⟩ := List.mem_map.1 hp
  exact ⟨nidxKeys_plain k hk, themeGet_valid t ht k hk⟩

theorem mkTheme_nidxPairs (t : Theme) : mkTheme (nidxPairs t) = .ok t := by
  simp +decide [mkTheme, nidxPairs, nidxKeys, themeGet, dictLookup,
    themeFields, requiredFields, NAME_FOR]

theorem nidxPairs_foldl (t : Theme) :
    List.foldl (fun d p => dictInsert d p.1 p.2) ([] : Dict) (nidxPairs t)
      = nidxPairs t := by
  simp +decide [nidxPairs, nidxKeys, themeGet, dictInsert]

theorem exceptBindOk {α β : Type} (x : α) (f : α → Except Err β) :
    ((Except.ok x : Except Err α) >>= f) = f x := rfl

theorem nidx_roundtrip (t : Theme) (ht : t.valid) :
    read_nidx (write_nidx t) = .ok t := by
  unfold read_nidx write_nidx
  rw [nidxLoop_enc (nidxPairs t) 0 [] (nidxPairs_plain t ht), exceptBindOk,
    nidxPairs_foldl, mkTheme_nidxPairs]

theorem csv_roundtrip (t : Theme) (ht : t.valid) :
    read_csv (write_csv t) = .ok t := by
  unfold read_csv write_csv
  rw [csvLoop_enc (nidxPairs t) 0 [] (nidxPairs_plain t ht), exceptBindOk,
    nidxPairs_foldl, mkTheme_nidxPairs]

/-! ## The stconf round trip and running-index step lemmas -/

theorem quotedHex_hex {c : Color} (hc : c.valid) (rest : List Char) :
    quotedHex ('"' :: (c.hex ++ ('"' :: rest))) = some (c.hex ++ ['"']) := by
  obtain ⟨hr, hg, hb⟩ := hc
  have h1 := digitChar_facts (x := c.r / 16) (by omega)
  have h2 := digitChar_facts (x := c.r % 16) (by omega)
  have h3 := digitChar_facts (x := c.g / 16) (by omega)
  have h4 := digitChar_facts (x := c.g % 16) (by omega)
  have h5 := digitChar_facts (x := c.b / 16) (by omega)
  have h6 := digitChar_facts (x := c.b % 16) (by omega)
  rw [hex_explicit ⟨hr, hg, hb⟩]
  simp [quotedHex, h1.1, h2.1, h3.1, h4.1, h5.1, h6.1]

theorem stconfMatchAt_bare {c : Color} (hc : c.valid) (rest : List Char) :
    stconfMatchAt ('"' :: (c.hex ++ ('"' :: rest)))
      = some (none, c.hex ++ ['"']) := by
  simp +decide [stconfMatchAt, quotedHex_hex hc rest]

theorem stconfMatchAt_idx {c : Color} (hc : c.valid) (ds rest : List Char)
    (hds : ds ≠ []) (hdig : ∀ ch ∈ ds, isDigit ch = true) :
    stconfMatchAt
        ('[' :: (ds ++ (']' :: ' ' :: '=' :: ' ' :: ('"' :: (c.hex ++ ('"' :: rest))))))
      = some (some (digitsToNat ds), c.hex ++ ['"']) := by
  have htw := takeWhile_append_stop (p := isDigit) ds
    (y := ']') (' ' :: '=' :: ' ' :: ('"' :: (c.hex ++ ('"' :: rest)))) hdig (by decide)
  have hdr := drop_len_append ds
    (']' :: ' ' :: '=' :: ' ' :: ('"' :: (c.hex ++ ('"' :: rest))))
  simp only [stconfMatchAt, htw, hdr]
  rw [if_neg hds]
  have hsp1 := takeWhile_append_stop (p := fun ch => ch = ' ') [' ']
    (y := '=') (' ' :: ('"' :: (c.hex ++ ('"' :: rest)))) (by decide) (by decide)
  have hsp2 := takeWhile_append_stop (p := fun ch => ch = ' ') [' ']
    (y := '"') (c.hex ++ ('"' :: rest)) (by decide) (by decide)
  simp only [List.singleton_append] at hsp1 hsp2
  simp only [hsp1, hsp2, List.length_cons, List.length_nil, List.drop_succ_cons,
    List.drop_zero, quotedHex_hex hc rest]
  simp

theorem stconfSearch_of_matchAt {l : List Char} {r : Option Nat × List Char}
    (hne : l ≠ []) (h : stconfMatchAt l = some r) : stconfSearch l = some r := by
  cases l with
  | nil => exact absurd rfl hne
  | cons a t => simp [stconfSearch, h]

/-- One iteration of the stconf loop on a line matched with an explicit
`[n] =` index. -/
theorem stconfLoop_cons_some (i n : Nat) (l : List Char) (ls : List (List Char))
    (d : Dict) (hx : List Char)
    (hcom : ¬(l.take 2 = ['/', '/'])) (hs : stconfSearch l = some (some n, hx)) :
    stconfLoop i (l :: ls) d
      = (match Color.parse hx with
         | .error e => .error e
         | .ok c =>
           match stconfColorFor n with
           | none => .error .keyError
           | some name =>
             if n + 1 > 257 then .ok (dictInsert d name c)
             else stconfLoop (n + 1) ls (dictInsert d name c)) := by
  simp only [stconfLoop]
  rw [if_neg hcom]
  simp only [hs]

/-- One iteration of the stconf loop on a line matched without an index
annotation: the running index is used. -/
theorem stconfLoop_cons_none (i : Nat) (l : List Char) (ls : List (List Char))
    (d : Dict) (hx : List Char)
    (hcom : ¬(l.take 2 = ['/', '/'])) (hs : stconfSearch l = some (none, hx)) :
    stconfLoop i (l :: ls) d
      = (match Color.parse hx with
         | .error e => .error e
         | .ok c =>
           match stconfColorFor i with
           | none => .error .keyError
           | some name =>
             if i + 1 > 257 then .ok (dictInsert d name c)
             else stconfLoop (i + 1) ls (dictInsert d name c)) := by
  simp only [stconfLoop]
  rw [if_neg hcom]
  simp only [hs]

/-- One iteration of the stconf loop on a line its regex rejects. -/
theorem stconfLoop_skip (i : Nat) (l : List Char) (ls : List (List Char))
    (d : Dict) (hl : stconfSearch l = none) (hi : i ≤ 257) :
    stconfLoop i (l :: ls) d = stconfLoop i ls d := by
  by_cases hcom : l.take 2 = ['/', '/']
  · simp only [stconfLoop, hcom, if_pos rfl, if_true]
  · simp only [stconfLoop]
    rw [if_neg hcom]
    simp only [hl]
    rw [if_neg (by omega)]

/-- An explicit `[n] =` line with a known palette slot, the new index not
beyond 257: the running index is reset to `n`, the slot recorded, and the
loop continues at `n + 1` (whatever the incoming running index was). -/
theorem stconfLoop_idx_cont (i n : Nat) (ds : List Char) {c : Color}
    (rest : List Char) (ls : List (List Char)) (d : Dict) (name : List Char)
    (hds : ds ≠ []) (hdig : ∀ ch ∈ ds, isDigit ch = true) (hc : c.valid)
    (hn : digitsToNat ds = n) (hname : stconfColorFor n = some name)
    (hlt : n + 1 ≤ 257) :
    stconfLoop i
        (('[' :: (ds ++ (']' :: ' ' :: '=' :: ' ' :: ('"' :: (c.hex ++ ('"' :: rest)))))) :: ls) d
      = stconfLoop (n + 1) ls (dictInsert d name c) := by
  have hsearch : stconfSearch
      ('[' :: (ds ++ (']' :: ' ' :: '=' :: ' ' :: ('"' :: (c.hex ++ ('"' :: rest))))))
        = some (some n, c.hex ++ ['"']) := by
    rw [← hn]
    exact stconfSearch_of_matchAt (by simp) (stconfMatchAt_idx hc ds rest hds hdig)
  rw [stconfLoop_cons_some i n _ ls d (c.hex ++ ['"']) (by simp) hsearch,
    parse_hex_append hc ['"'], hname]
  dsimp only
  rw [if_neg (by omega)]

/-- Same, but the new index is the last slot (so the stop condition fires):
the slot is recorded and the loop returns, ignoring remaining lines. -/
theorem stconfLoop_idx_last (i n : Nat) (ds : List Char) {c : Color}
    (rest : List Char) (ls : List (List Char)) (d : Dict) (name : List Char)
    (hds : ds ≠ []) (hdig : ∀ ch ∈ ds, isDigit ch = true) (hc : c.valid)
    (hn : digitsToNat ds = n) (hname : stconfColorFor n = some name)
    (hgt : n + 1 > 257) :
    stconfLoop i
        (('[' :: (ds ++ (']' :: ' ' :: '=' :: ' ' :: ('"' :: (c.hex ++ ('"' :: rest)))))) :: ls) d
      = .ok (dictInsert d name c) := by
  have hsearch : stconfSearch
      ('[' :: (ds ++ (']' :: ' ' :: '=' :: ' ' :: ('"' :: (c.hex ++ ('"' :: rest))))))
        = some (some n, c.hex ++ ['"']) := by
    rw [← hn]
    exact stconfSearch_of_matchAt (by simp) (stconfMatchAt_idx hc ds rest hds hdig)
  rw [stconfLoop_cons_some i n _ ls d (c.hex ++ ['"']) (by simp) hsearch,
    parse_hex_append hc ['"'], hname]
  dsimp only
  rw [if_pos (by omega)]

/-- An explicit `[n] =` line whose index `color_for` lacks: `KeyError`. -/
theorem stconfLoop_idx_err (i n : Nat) (ds : List Char) {c : Color}
    (rest : List Char) (ls : List (List Char)) (d : Dict)
    (hds : ds ≠ []) (hdig : ∀ ch ∈ ds, isDigit ch = true) (hc : c.valid)
    (hn : digitsToNat ds = n) (hname : stconfColorFor n = none) :
    stconfLoop i
        (('[' :: (ds ++ (']' :: ' ' :: '=' :: ' ' :: ('"' :: (c.hex ++ ('"' :: rest)))))) :: ls) d
      = .error .keyError := by
  have hsearch : stconfSearch
      ('[' :: (ds ++ (']' :: ' ' :: '=' :: ' ' :: ('"' :: (c.hex ++ ('"' :: rest))))))
        = some (some n, c.hex ++ ['"']) := by
    rw [← hn]
    exact stconfSearch_of_matchAt (by simp) (stconfMatchAt_idx hc ds rest hds hdig)
  rw [stconfLoop_cons_some i n _ ls d (c.hex ++ ['"']) (by simp) hsearch,
    parse_hex_append hc ['"'], hname]

/-- An unannotated literal line records at the running index and increments
it (running index still below the stop threshold). -/
theorem stconfLoop_bare_cont (i : Nat) {c : Color} (rest : List Char)
    (ls : List (List Char)) (d : Dict) (name : List Char)
    (hc : c.valid) (hname : stconfColorFor i = some name) (hlt : i + 1 ≤ 257) :
    stconfLoop i (('"' :: (c.hex ++ ('"' :: rest))) :: ls) d
      = stconfLoop (i + 1) ls (dictInsert d name c) := by
  rw [stconfLoop_cons_none i _ ls d (c.hex ++ ['"']) (by simp)
      (stconfSearch_of_matchAt (by simp) (stconfMatchAt_bare hc rest)),
    parse_hex_append hc ['"'], hname]
  dsimp only
  rw [if_neg (by omega)]

/-- An unannotated literal at running index 257: `foreground` is recorded
and the loop stops, ignoring all remaining lines. -/
theorem stconfLoop_bare_last {c : Color} (rest : List Char)
    (ls : List (List Char)) (d : Dict) (hc : c.valid) :
    stconfLoop 257 (('"' :: (c.hex ++ ('"' :: rest))) :: ls) d
      = .ok (dictInsert d fgN c) := by
  rw [stconfLoop_cons_none 257 _ ls d (c.hex ++ ['"']) (by simp)
      (stconfSearch_of_matchAt (by simp) (stconfMatchAt_bare hc rest)),
    parse_hex_append hc ['"'],
    show stconfColorFor 257 = some fgN from by decide]
  dsimp only
  rw [if_pos (by omega)]

/-- An unannotated literal at a running index `color_for` lacks:
`KeyError`. -/
theorem stconfLoop_bare_err (i : Nat) {c : Color} (rest : List Char)
    (ls : List (List Char)) (d : Dict) (hc : c.valid)
    (hname : stconfColorFor i = none) :
    stconfLoop i (('"' :: (c.hex ++ ('"' :: rest))) :: ls) d
      = .error .keyError := by
  rw [stconfLoop_cons_none i _ ls d (c.hex ++ ['"']) (by simp)
      (stconfSearch_of_matchAt (by simp) (stconfMatchAt_bare hc rest)),
    parse_hex_append hc ['"'], hname]


theorem stconfIns1 (a1 : Color) :
    dictInsert [] blackN a1 = [(blackN, a1)] := rfl

theorem stconfIns2 (a1 a2 : Color) :
    dictInsert [(blackN, a1)] redN a2 = [(blackN, a1), (redN, a2)] := by simp +decide [dictInsert]

theorem stconfIns3 (a1 a2 a3 : Color) :
    dictInsert [(blackN, a1), (redN, a2)] greenN a3 = [(blackN, a1), (redN, a2), (greenN, a3)] := by simp +decide [dictInsert]

theorem stconfIns4 (a1 a2 a3 a4 : Color) :
    dictInsert [(blackN, a1), (redN, a2), (greenN, a3)] yellowN a4 = [(blackN, a1), (redN, a2), (greenN, a3), (yellowN, a4)] := by simp +decide [dictInsert]

theorem stconfIns5 (a1 a2 a3 a4 a5 : Color) :
    dictInsert [(blackN, a1), (redN, a2), (greenN, a3), (yellowN, a4)] blueN a5 = [(blackN, a1), (redN, a2), (greenN, a3), (yellowN, a4), (blueN, a5)] := by simp +decide [dictInsert]

theorem stconfIns6 (a1 a2 a3 a4 a5 a6 : Color) :
    dictInsert [(blackN, a1), (redN, a2), (greenN, a3), (yellowN, a4), (blueN, a5)] magentaN a6 = [(blackN, a1), (redN, a2), (greenN, a3), (yellowN, a4), (blueN, a5), (magentaN, a6)] := by simp +decide [dictInsert]

theorem stconfIns7 (a1 a2 a3 a4 a5 a6 a7 : Color) :
    dictInsert [(blackN, a1), (redN, a2), (greenN, a3), (yellowN, a4), (blueN, a5), (magentaN, a6)] cyanN a7 = [(blackN, a1), (redN, a2), (greenN, a3), (yellowN, a4), (blueN, a5), (magentaN, a6), (cyanN, a7)] := by simp +decide [dictInsert]

theorem stconfIns8 (a1 a2 a3 a4 a5 a6 a7 a8 : Color) :
    dictInsert [(blackN, a1), (redN, a2), (greenN, a3), (yellowN, a4), (blueN, a5), (magentaN, a6), (cyanN, a7)] whiteN a8 = [(blackN, a1), (redN, a2), (greenN, a3), (yellowN, a4), (blueN, a5), (magentaN, a6), (cyanN, a7), (whiteN, a8)] := by simp +decide [dictInsert]

theorem stconfIns9 (a1 a2 a3 a4 a5 a6 a7 a8 a9 : Color) :
    dictInsert [(blackN, a1), (redN, a2), (greenN, a3), (yellowN, a4), (blueN, a5), (magentaN, a6), (cyanN, a7), (whiteN, a8)] blackBN a9 = [(blackN, a1), (redN, a2), (greenN, a3), (yellowN, a4), (blueN, a5), (magentaN, a6), (cyanN, a7), (whiteN, a8), (blackBN, a9)] := by simp +decide [dictInsert]

theorem stconfIns10 (a1 a2 a3 a4 a5 a6 a7 a8 a9 a10 : Color) :
    dictInsert [(blackN, a1), (redN, a2), (greenN, a3), (yellowN, a4), (blueN, a5), (magentaN, a6), (cyanN, a7), (whiteN, a8), (blackBN, a9)] redBN a10 = [(blackN, a1), (redN, a2), (greenN, a3), (yellowN, a4), (blueN, a5), (magentaN, a6), (cyanN, a7), (whiteN, a8), (blackBN, a9), (redBN, a10)] := by simp +decide [dictInsert]

theorem stconfIns11 (a1 a2 a3 a4 a5 a6 a7 a8 a9 a10 a11 : Color) :
    dictInsert [(blackN, a1), (redN, a2), (greenN, a3), (yellowN, a4), (blueN, a5), (magentaN, a6), (cyanN, a7), (whiteN, a8), (blackBN, a9), (redBN, a10)] greenBN a11 = [(blackN, a1), (redN, a2), (greenN, a3), (yellowN, a4), (blueN, a5), (magentaN, a6), (cyanN, a7), (whiteN, a8), (blackBN, a9), (redBN, a10), (greenBN, a11)] := by simp +decide [dictInsert]

theorem stconfIns12 (a1 a2 a3 a4 a5 a6 a7 a8 a9 a10 a11 a12 : Color) :
    dictInsert [(blackN, a1), (redN, a2), (greenN, a3), (yellowN, a4), (blueN, a5), (magentaN, a6), (cyanN, a7), (whiteN, a8), (blackBN, a9), (redBN, a10), (greenBN, a11)] yellowBN a12 = [(blackN, a1), (redN, a2), (greenN, a3), (yellowN, a4), (blueN, a5), (magentaN, a6), (cyanN, a7), (whiteN, a8), (blackBN, a9), (redBN, a10), (greenBN, a11), (yellowBN, a12)] := by simp +decide [dictInsert]

theorem stconfIns13 (a1 a2 a3 a4 a5 a6 a7 a8 a9 a10 a11 a12 a13 : Color) :
    dictInsert [(blackN, a1), (redN, a2), (greenN, a3), (yellowN, a4), (blueN, a5), (magentaN, a6), (cyanN, a7), (whiteN, a8), (blackBN, a9), (redBN, a10), (greenBN, a11), (yellowBN, a12)] blueBN a13 = [(blackN, a1), (redN, a2), (greenN, a3), (yellowN, a4), (blueN, a5), (magentaN, a6), (cyanN, a7), (whiteN, a8), (blackBN, a9), (redBN, a10), (greenBN, a11), (yellowBN, a12), (blueBN, a13)] := by simp +decide [dictInsert]

theorem stconfIns14 (a1 a2 a3 a4 a5 a6 a7 a8 a9 a10 a11 a12 a13 a14 : Color) :
    dictInsert [(blackN, a1), (redN, a2), (greenN, a3), (yellowN, a4), (blueN, a5), (magentaN, a6), (cyanN, a7), (whiteN, a8), (blackBN, a9), (redBN, a10), (greenBN, a11), (yellowBN, a12), (blueBN, a13)] magentaBN a14 = [(blackN, a1), (redN, a2), (greenN, a3), (yellowN, a4), (blueN, a5), (magentaN, a6), (cyanN, a7), (whiteN, a8), (blackBN, a9), (redBN, a10), (greenBN, a11), (yellowBN, a12), (blueBN, a13), (magentaBN, a14)] := by simp +decide [dictInsert]

theorem stconfIns15 (a1 a2 a3 a4 a5 a6 a7 a8 a9 a10 a11 a12 a13 a14 a15 : Color) :
    dictInsert [(blackN, a1), (redN, a2), (greenN, a3), (yellowN, a4), (blueN, a5), (magentaN, a6), (cyanN, a7), (whiteN, a8), (blackBN, a9), (redBN, a10), (greenBN, a11), (yellowBN, a12), (blueBN, a13), (magentaBN, a14)] cyanBN a15 = [(blackN, a1), (redN, a2), (greenN, a3), (yellowN, a4), (blueN, a5), (magentaN, a6), (cyanN, a7), (whiteN, a8), (blackBN, a9), (redBN, a10), (greenBN, a11), (yellowBN, a12), (blueBN, a13), (magentaBN, a14), (cyanBN, a15)] := by simp +decide [dictInsert]

theorem stconfIns16 (a1 a2 a3 a4 a5 a6 a7 a8 a9 a10 a11 a12 a13 a14 a15 a16 : Color) :
    dictInsert [(blackN, a1), (redN, a2), (greenN, a3), (yellowN, a4), (blueN, a5), (magentaN, a6), (cyanN, a7), (whiteN, a8), (blackBN, a9), (redBN, a10), (greenBN, a11), (yellowBN, a12), (blueBN, a13), (magentaBN, a14), (cyanBN, a15)] whiteBN a16 = [(blackN, a1), (redN, a2), (greenN, a3), (yellowN, a4), (blueN, a5), (magentaN, a6), (cyanN, a7), (whiteN, a8), (blackBN, a9), (redBN, a10), (greenBN, a11), (yellowBN, a12), (blueBN, a13), (magentaBN, a14), (cyanBN, a15), (whiteBN, a16)] := by simp +decide [dictInsert]

theorem stconfIns17 (a1 a2 a3 a4 a5 a6 a7 a8 a9 a10 a11 a12 a13 a14 a15 a16 a17 : Color) :
    dictInsert [(blackN, a1), (redN, a2), (greenN, a3), (yellowN, a4), (blueN, a5), (magentaN, a6), (cyanN, a7), (whiteN, a8), (blackBN, a9), (redBN, a10), (greenBN, a11), (yellowBN, a12), (blueBN, a13), (magentaBN, a14), (cyanBN, a15), (whiteBN, a16)] bgN a17 = [(blackN, a1), (redN, a2), (greenN, a3), (yellowN, a4), (blueN, a5), (magentaN, a6), (cyanN, a7), (whiteN, a8), (blackBN, a9), (redBN, a10), (greenBN, a11), (yellowBN, a12), (blueBN, a13), (magentaBN, a14), (cyanBN, a15), (whiteBN, a16), (bgN, a17)] := by simp +decide [dictInsert]

theorem stconfIns18 (a1 a2 a3 a4 a5 a6 a7 a8 a9 a10 a11 a12 a13 a14 a15 a16 a17 a18 : Color) :
    dictInsert [(blackN, a1), (redN, a2), (greenN, a3), (yellowN, a4), (blueN, a5), (magentaN, a6), (cyanN, a7), (whiteN, a8), (blackBN, a9), (redBN, a10), (greenBN, a11), (yellowBN, a12), (blueBN, a13), (magentaBN, a14), (cyanBN, a15), (whiteBN, a16), (bgN, a17)] fgN a18 = [(blackN, a1), (redN, a2), (greenN, a3), (yellowN, a4), (blueN, a5), (magentaN, a6), (cyanN, a7), (whiteN, a8), (blackBN, a9), (redBN, a10), (greenBN, a11), (yellowBN, a12), (blueBN, a13), (magentaBN, a14), (cyanBN, a15), (whiteBN, a16), (bgN, a17), (fgN, a18)] := by simp +decide [dictInsert]

theorem mkTheme_stconfDict (a1 a2 a3 a4 a5 a6 a7 a8 a9 a10 a11 a12 a13 a14 a15 a16 a17 a18 : Color) :
    mkTheme [(blackN, a1), (redN, a2), (greenN, a3), (yellowN, a4), (blueN, a5), (magentaN, a6), (cyanN, a7), (whiteN, a8), (blackBN, a9), (redBN, a10), (greenBN, a11), (yellowBN, a12), (blueBN, a13), (magentaBN, a14), (cyanBN, a15), (whiteBN, a16), (bgN, a17), (fgN, a18)]
      = .ok ⟨a18, a17, a1, a2, a3, a4, a5, a6, a7, a8, a9, a10, a11, a12, a13,
          a14, a15, a16, cursorDefault, cursorReverseDefault⟩ := by
  simp +decide [mkTheme, dictLookup, themeFields, requiredFields, NAME_FOR]
set_option maxHeartbeats 3200000 in
theorem stconf_roundtrip (t : Theme) (ht : t.valid) :
    read_stconf (write_stconf t)
      = .ok ⟨t.foreground, t.background, t.black, t.red, t.green, t.yellow,
          t.blue, t.magenta, t.cyan, t.white, t.black_bright, t.red_bright,
          t.green_bright, t.yellow_bright, t.blue_bright, t.magenta_bright,
          t.cyan_bright, t.white_bright, cursorDefault, cursorReverseDefault⟩ := by
  obtain ⟨v1, v2, v3, v4, v5, v6, v7, v8, v9, v10, v11, v12, v13, v14, v15,
    v16, v17, v18, v19, v20⟩ := ht
  unfold read_stconf write_stconf stconfLine
  rw [stconfLoop_skip 0 ("/* 8 normal colors */".toList) _ _ (by decide) (by omega),
    stconfLoop_idx_cont _ 0 ['0'] _ _ _ blackN (by decide) (by decide) v3
      (by decide) (by decide) (by omega),
    stconfIns1,
    stconfLoop_idx_cont _ 1 ['1'] _ _ _ redN (by decide) (by decide) v4
      (by decide) (by decide) (by omega),
    stconfIns2,
    stconfLoop_idx_cont _ 2 ['2'] _ _ _ greenN (by decide) (by decide) v5
      (by decide) (by decide) (by omega),
    stconfIns3,
    stconfLoop_idx_cont _ 3 ['3'] _ _ _ yellowN (by decide) (by decide) v6
      (by decide) (by decide) (by omega),
    stconfIns4,
    stconfLoop_idx_cont _ 4 ['4'] _ _ _ blueN (by decide) (by decide) v7
      (by decide) (by decide) (by omega),
    stconfIns5,
    stconfLoop_idx_cont _ 5 ['5'] _ _ _ magentaN (by decide) (by decide) v8
      (by decide) (by decide) (by omega),
    stconfIns6,
    stconfLoop_idx_cont _ 6 ['6'] _ _ _ cyanN (by decide) (by decide) v9
      (by decide) (by decide) (by omega),
    stconfIns7,
    stconfLoop_idx_cont _ 7 ['7'] _ _ _ whiteN (by decide) (by decide) v10
      (by decide) (by decide) (by omega),
    stconfIns8,
    stconfLoop_skip 8 ([] : List Char) _ _ (by decide) (by omega),
    stconfLoop_skip 8 ("/* 8 bright colors */".toList) _ _ (by decide) (by omega),
    stconfLoop_idx_cont _ 8 ['8'] _ _ _ blackBN (by decide) (by decide) v11
      (by decide) (by decide) (by omega),
    stconfIns9,
    stconfLoop_idx_cont _ 9 ['9'] _ _ _ redBN (by decide) (by decide) v12
      (by decide) (by decide) (by omega),
    stconfIns10,
    stconfLoop_idx_cont _ 10 ['1', '0'] _ _ _ greenBN (by decide) (by decide) v13
      (by decide) (by decide) (by omega),
    stconfIns11,
    stconfLoop_idx_cont _ 11 ['1', '1'] _ _ _ yellowBN (by decide) (by decide) v14
      (by decide) (by decide) (by omega),
    stconfIns12,
    stconfLoop_idx_cont _ 12 ['1', '2'] _ _ _ blueBN (by decide) (by decide) v15
      (by decide) (by decide) (by omega),
    stconfIns13,
    stconfLoop_idx_cont _ 13 ['1', '3'] _ _ _ magentaBN (by decide) (by decide) v16
      (by decide) (by decide) (by omega),
    stconfIns14,
    stconfLoop_idx_cont _ 14 ['1', '4'] _ _ _ cyanBN (by decide) (by decide) v17
      (by decide) (by decide) (by omega),
    stconfIns15,
    stconfLoop_idx_cont _ 15 ['1', '5'] _ _ _ whiteBN (by decide) (by decide) v18
      (by decide) (by decide) (by omega),
    stconfIns16,
    stconfLoop_skip 16 ([] : List Char) _ _ (by decide) (by omega),
    stconfLoop_skip 16 ("/* special colors */".toList) _ _ (by decide) (by omega),
    stconfLoop_idx_cont _ 256 ['2', '5', '6'] _ _ _ bgN (by decide) (by decide) v2
      (by decide) (by decide) (by omega),
    stconfIns17,
    stconfLoop_idx_last _ 257 ['2', '5', '7'] _ _ _ fgN (by decide) (by decide) v1
      (by decide) (by decide) (by omega),
    stconfIns18,
    exceptBindOk]
  rw [mkTheme_stconfDict]

/-! ## The xres round trip and label-dispatch step lemmas -/

theorem spacesThenHex_enc {c : Color} (hc : c.valid) (k : Nat) :
    spacesThenHex (List.replicate k ' ' ++ c.hex) = some c.hex := by
  obtain ⟨hr, hg, hb⟩ := hc
  have h1 := digitChar_facts (x := c.r / 16) (by omega)
  have h2 := digitChar_facts (x := c.r % 16) (by omega)
  have h3 := digitChar_facts (x := c.g / 16) (by omega)
  have h4 := digitChar_facts (x := c.g % 16) (by omega)
  have h5 := digitChar_facts (x := c.b / 16) (by omega)
  have h6 := digitChar_facts (x := c.b % 16) (by omega)
  have hdw : (List.replicate k ' ' ++ c.hex).dropWhile (fun ch => ch = ' ')
      = c.hex := by
    refine dropWhile_append_stop _ _ (fun ch hch => ?_) (fun h hh => ?_)
    · simp only [List.mem_replicate] at hch
      simp [hch.2]
    · rw [hex_head] at hh
      simp only [Option.mem_def, Option.some.injEq] at hh
      subst hh
      decide
  rw [spacesThenHex, hdw, hex_explicit ⟨hr, hg, hb⟩]
  simp only [h1.1, h2.1, h3.1, h4.1, h5.1, h6.1, Bool.and_self, if_true]

theorem xresMatchAt_enc {c : Color} (hc : c.valid) (label : List Char) (k : Nat)
    (hne : label ≠ []) (hcol : ∀ ch ∈ label, ¬(ch = ':')) :
    xresMatchAt (label ++ (':' :: (List.replicate k ' ' ++ c.hex)))
      = some (label, c.hex) := by
  have htw : (label ++ (':' :: (List.replicate k ' ' ++ c.hex))).takeWhile
      (fun ch => !(ch = ':')) = label := by
    refine takeWhile_append_stop _ _ (fun ch hch => ?_) (by simp)
    simpa using hcol ch hch
  have hdr := drop_len_append label (':' :: (List.replicate k ' ' ++ c.hex))
  simp only [xresMatchAt, htw, hdr]
  rw [if_neg hne]
  rw [spacesThenHex_enc hc k]
  rfl

theorem xresSearch_of_matchAt {l : List Char} {r : List Char × List Char}
    (hne : l ≠ []) (h : xresMatchAt l = some r) : xresSearch l = some r := by
  cases l with
  | nil => exact absurd rfl hne
  | cons a t => simp [xresSearch, h]

/-- A comment (`!`) or blank line is skipped. -/
theorem xresLoop_skip (l : List Char) (ls : List (List Char)) (d : Dict)
    (h : (l.head? = some '!' || isBlank l) = true) :
    xresLoop (l :: ls) d = xresLoop ls d := by
  simp only [xresLoop, h, if_pos rfl, if_true]

/-- A matched line whose reduced label is `foreground`/`background` records
that slot. -/
theorem xresStep_fgbg (l : List Char) (ls : List (List Char)) (d : Dict)
    (label0 hx : List Char) (c : Color) (key : List Char)
    (hskip : ¬(l.head? = some '!' || isBlank l) = true)
    (hsearch : xresSearch l = some (label0, hx))
    (hparse : Color.parse hx = .ok c)
    (hred : reduceLabel label0 = key) (hkey : key = fgN ∨ key = bgN) :
    xresLoop (l :: ls) d = xresLoop ls (dictInsert d key c) := by
  simp only [xresLoop]
  rw [if_neg hskip]
  simp only [hsearch, hred, hparse]
  rcases hkey with rfl | rfl <;> simp +decide

/-- A matched line whose reduced label is `cursorColor` records `cursor`. -/
theorem xresStep_cursor (l : List Char) (ls : List (List Char)) (d : Dict)
    (label0 hx : List Char) (c : Color)
    (hskip : ¬(l.head? = some '!' || isBlank l) = true)
    (hsearch : xresSearch l = some (label0, hx))
    (hparse : Color.parse hx = .ok c)
    (hred : reduceLabel label0 = cursorColorN) :
    xresLoop (l :: ls) d = xresLoop ls (dictInsert d cursorN c) := by
  simp only [xresLoop]
  rw [if_neg hskip]
  simp only [hsearch, hred, hparse]
  simp +decide

/-- A matched line whose reduced label is `color` followed by an integer
with a palette entry records that ANSI slot. -/
theorem xresStep_colorN (l : List Char) (ls : List (List Char)) (d : Dict)
    (label0 hx : List Char) (c : Color) (lab : List Char) (n : Int)
    (name : List Char)
    (hskip : ¬(l.head? = some '!' || isBlank l) = true)
    (hsearch : xresSearch l = some (label0, hx))
    (hparse : Color.parse hx = .ok c)
    (hred : reduceLabel label0 = lab)
    (hne1 : ¬(lab = fgN)) (hne2 : ¬(lab = bgN)) (hne3 : ¬(lab = cursorColorN))
    (hpre : listStartsWith "color".toList lab = true)
    (hint : pyInt (lab.drop 5) = some n) (hname : nameForInt n = some name) :
    xresLoop (l :: ls) d = xresLoop ls (dictInsert d name c) := by
  simp only [xresLoop]
  rw [if_neg hskip]
  simp only [hsearch, hred, hparse, hne1, hne2, hne3, hpre, hint, hname]
  simp

/-- A matched line whose reduced label starts with `color` but whose suffix
`int()` rejects: `ValueError`. -/
theorem xresStep_colorErr (l : List Char) (ls : List (List Char)) (d : Dict)
    (label0 hx : List Char) (c : Color) (lab : List Char)
    (hskip : ¬(l.head? = some '!' || isBlank l) = true)
    (hsearch : xresSearch l = some (label0, hx))
    (hparse : Color.parse hx = .ok c)
    (hred : reduceLabel label0 = lab)
    (hne1 : ¬(lab = fgN)) (hne2 : ¬(lab = bgN)) (hne3 : ¬(lab = cursorColorN))
    (hpre : listStartsWith "color".toList lab = true)
    (hint : pyInt (lab.drop 5) = none) :
    xresLoop (l :: ls) d = .error .valueError := by
  simp only [xresLoop]
  rw [if_neg hskip]
  simp only [hsearch, hred, hparse, hne1, hne2, hne3, hpre, hint]
  simp

/-- A matched line whose reduced label is `colorN` with `N` outside the
`NAME_FOR` table: `KeyError`. -/
theorem xresStep_colorKeyErr (l : List Char) (ls : List (List Char)) (d : Dict)
    (label0 hx : List Char) (c : Color) (lab : List Char) (n : Int)
    (hskip : ¬(l.head? = some '!' || isBlank l) = true)
    (hsearch : xresSearch l = some (label0, hx))
    (hparse : Color.parse hx = .ok c)
    (hred : reduceLabel label0 = lab)
    (hne1 : ¬(lab = fgN)) (hne2 : ¬(lab = bgN)) (hne3 : ¬(lab = cursorColorN))
    (hpre : listStartsWith "color".toList lab = true)
    (hint : pyInt (lab.drop 5) = some n) (hname : nameForInt n = none) :
    xresLoop (l :: ls) d = .error .keyError := by
  simp only [xresLoop]
  rw [if_neg hskip]
  simp only [hsearch, hred, hparse, hne1, hne2, hne3, hpre, hint, hname]
  simp

/-- A matched line whose reduced label is none of the recognized forms is
silently dropped: no error, no slot. -/
theorem xresStep_other (l : List Char) (ls : List (List Char)) (d : Dict)
    (label0 hx : List Char) (c : Color) (lab : List Char)
    (hskip : ¬(l.head? = some '!' || isBlank l) = true)
    (hsearch : xresSearch l = some (label0, hx))
    (hparse : Color.parse hx = .ok c)
    (hred : reduceLabel label0 = lab)
    (hne1 : ¬(lab = fgN)) (hne2 : ¬(lab = bgN)) (hne3 : ¬(lab = cursorColorN))
    (hpre : listStartsWith "color".toList lab = false) :
    xresLoop (l :: ls) d = xresLoop ls d := by
  simp only [xresLoop]
  rw [if_neg hskip]
  simp only [hsearch, hred, hparse, hne1, hne2, hne3, hpre]
  simp

/-- An unmatched, non-comment, non-blank line is a hard error. -/
theorem xresStep_badline (l : List Char) (ls : List (List Char)) (d : Dict)
    (hskip : ¬(l.head? = some '!' || isBlank l) = true)
    (hsearch : xresSearch l = none) :
    xresLoop (l :: ls) d = .error (.lineFormatError l) := by
  simp only [xresLoop]
  rw [if_neg hskip]
  simp only [hsearch]

theorem xresLine_eq (name : List Char) (c : Color) :
    xresLine name c
      = ('*' :: '.' :: name) ++
          (':' :: (List.replicate (16 - (('*' :: '.' :: name) ++ [':']).length) ' '
            ++ c.hex)) := by
  simp [xresLine, padTo16, List.append_assoc]

theorem xres_encLine_notSkip (name rest : List Char) :
    ¬((('*' :: '.' :: name) ++ rest).head? = some '!'
        || isBlank (('*' :: '.' :: name) ++ rest)) = true := by
  simp +decide [isBlank, isSpacePy]

/-- Decoding one encoded `*.name:` line whose reduced label is
`foreground`/`background`. -/
theorem xresEnc_fgbg (name key : List Char) {c : Color} (ls : List (List Char))
    (d : Dict) (hc : c.valid)
    (hne : ¬(name = [])) (hcol : ∀ ch ∈ name, ¬(ch = ':'))
    (hred : reduceLabel ('*' :: '.' :: name) = key) (hkey : key = fgN ∨ key = bgN) :
    xresLoop (xresLine name c :: ls) d = xresLoop ls (dictInsert d key c) := by
  rw [xresLine_eq]
  refine xresStep_fgbg _ ls d ('*' :: '.' :: name) c.hex c key
    (xres_encLine_notSkip name _)
    (xresSearch_of_matchAt (by simp) (xresMatchAt_enc hc _ _ (by simp) ?_))
    (parse_hex hc) hred hkey
  intro ch hch
  simp only [List.mem_cons] at hch
  rcases hch with rfl | rfl | hch
  · decide
  · decide
  · exact hcol ch hch

/-- Decoding the encoded `*.cursorColor:` line. -/
theorem xresEnc_cursor {c : Color} (ls : List (List Char)) (d : Dict)
    (hc : c.valid) :
    xresLoop (xresLine cursorColorN c :: ls) d
      = xresLoop ls (dictInsert d cursorN c) := by
  rw [xresLine_eq]
  exact xresStep_cursor _ ls d ('*' :: '.' :: cursorColorN) c.hex c
    (xres_encLine_notSkip cursorColorN _)
    (xresSearch_of_matchAt (by simp) (xresMatchAt_enc hc _ _ (by simp) (by decide)))
    (parse_hex hc) (by decide)

/-- Decoding one encoded `*.colorN:` line. -/
theorem xresEnc_colorN (name : List Char) (n : Int) (slot : List Char)
    {c : Color} (ls : List (List Char)) (d : Dict) (hc : c.valid)
    (hne : ¬(name = [])) (hcol : ∀ ch ∈ name, ¬(ch = ':'))
    (hred : reduceLabel ('*' :: '.' :: name) = name)
    (hne1 : ¬(name = fgN)) (hne2 : ¬(name = bgN)) (hne3 : ¬(name = cursorColorN))
    (hpre : listStartsWith "color".toList name = true)
    (hint : pyInt (name.drop 5) = some n) (hname : nameForInt n = some slot) :
    xresLoop (xresLine name c :: ls) d = xresLoop ls (dictInsert d slot c) := by
  rw [xresLine_eq]
  refine xresStep_colorN _ ls d ('*' :: '.' :: name) c.hex c name n slot
    (xres_encLine_notSkip name _)
    (xresSearch_of_matchAt (by simp) (xresMatchAt_enc hc _ _ (by simp) ?_))
    (parse_hex hc) hred hne1 hne2 hne3 hpre hint hname
  intro ch hch
  simp only [List.mem_cons] at hch
  rcases hch with rfl | rfl | hch
  · decide
  · decide
  · exact hcol ch hch

theorem xresIns1 (a1 : Color) :
    dictInsert [] fgN a1 = [(fgN, a1)] := rfl

theorem xresIns2 (a1 a2 : Color) :
    dictInsert [(fgN, a1)] bgN a2 = [(fgN, a1), (bgN, a2)] := by simp +decide [dictInsert]

theorem xresIns3 (a1 a2 a3 : Color) :
    dictInsert [(fgN, a1), (bgN, a2)] cursorN a3 = [(fgN, a1), (bgN, a2), (cursorN, a3)] := by simp +decide [dictInsert]

theorem xresIns4 (a1 a2 a3 a4 : Color) :
    dictInsert [(fgN, a1), (bgN, a2), (cursorN, a3)] blackN a4 = [(fgN, a1), (bgN, a2), (cursorN, a3), (blackN, a4)] := by simp +decide [dictInsert]

theorem xresIns5 (a1 a2 a3 a4 a5 : Color) :
    dictInsert [(fgN, a1), (bgN, a2), (cursorN, a3), (blackN, a4)] blackBN a5 = [(fgN, a1), (bgN, a2), (cursorN, a3), (blackN, a4), (blackBN, a5)] := by simp +decide [dictInsert]

theorem xresIns6 (a1 a2 a3 a4 a5 a6 : Color) :
    dictInsert [(fgN, a1), (bgN, a2), (cursorN, a3), (blackN, a4), (blackBN, a5)] redN a6 = [(fgN, a1), (bgN, a2), (cursorN, a3), (blackN, a4), (blackBN, a5), (redN, a6)] := by simp +decide [dictInsert]

theorem xresIns7 (a1 a2 a3 a4 a5 a6 a7 : Color) :
    dictInsert [(fgN, a1), (bgN, a2), (cursorN, a3), (blackN, a4), (blackBN, a5), (redN, a6)] redBN a7 = [(fgN, a1), (bgN, a2), (cursorN, a3), (blackN, a4), (blackBN, a5), (redN, a6), (redBN, a7)] := by simp +decide [dictInsert]

theorem xresIns8 (a1 a2 a3 a4 a5 a6 a7 a8 : Color) :
    dictInsert [(fgN, a1), (bgN, a2), (cursorN, a3), (blackN, a4), (blackBN, a5), (redN, a6), (redBN, a7)] greenN a8 = [(fgN, a1), (bgN, a2), (cursorN, a3), (blackN, a4), (blackBN, a5), (redN, a6), (redBN, a7), (greenN, a8)] := by simp +decide [dictInsert]

theorem xresIns9 (a1 a2 a3 a4 a5 a6 a7 a8 a9 : Color) :
    dictInsert [(fgN, a1), (bgN, a2), (cursorN, a3), (blackN, a4), (blackBN, a5), (redN, a6), (redBN, a7), (greenN, a8)] greenBN a9 = [(fgN, a1), (bgN, a2), (cursorN, a3), (blackN, a4), (blackBN, a5), (redN, a6), (redBN, a7), (greenN, a8), (greenBN, a9)] := by simp +decide [dictInsert]

theorem xresIns10 (a1 a2 a3 a4 a5 a6 a7 a8 a9 a10 : Color) :
    dictInsert [(fgN, a1), (bgN, a2), (cursorN, a3), (blackN, a4), (blackBN, a5), (redN, a6), (redBN, a7), (greenN, a8), (greenBN, a9)] yellowN a10 = [(fgN, a1), (bgN, a2), (cursorN, a3), (blackN, a4), (blackBN, a5), (redN, a6), (redBN, a7), (greenN, a8), (greenBN, a9), (yellowN, a10)] := by simp +decide [dictInsert]

theorem xresIns11 (a1 a2 a3 a4 a5 a6 a7 a8 a9 a10 a11 : Color) :
    dictInsert [(fgN, a1), (bgN, a2), (cursorN, a3), (blackN, a4), (blackBN, a5), (redN, a6), (redBN, a7), (greenN, a8), (greenBN, a9), (yellowN, a10)] yellowBN a11 = [(fgN, a1), (bgN, a2), (cursorN, a3), (blackN, a4), (blackBN, a5), (redN, a6), (redBN, a7), (greenN, a8), (greenBN, a9), (yellowN, a10), (yellowBN, a11)] := by simp +decide [dictInsert]

theorem xresIns12 (a1 a2 a3 a4 a5 a6 a7 a8 a9 a10 a11 a12 : Color) :
    dictInsert [(fgN, a1), (bgN, a2), (cursorN, a3), (blackN, a4), (blackBN, a5), (redN, a6), (redBN, a7), (greenN, a8), (greenBN, a9), (yellowN, a10), (yellowBN, a11)] blueN a12 = [(fgN, a1), (bgN, a2), (cursorN, a3), (blackN, a4), (blackBN, a5), (redN, a6), (redBN, a7), (greenN, a8), (greenBN, a9), (yellowN, a10), (yellowBN, a11), (blueN, a12)] := by simp +decide [dictInsert]

theorem xresIns13 (a1 a2 a3 a4 a5 a6 a7 a8 a9 a10 a11 a12 a13 : Color) :
    dictInsert [(fgN, a1), (bgN, a2), (cursorN, a3), (blackN, a4), (blackBN, a5), (redN, a6), (redBN, a7), (greenN, a8), (greenBN, a9), (yellowN, a10), (yellowBN, a11), (blueN, a12)] blueBN a13 = [(fgN, a1), (bgN, a2), (cursorN, a3), (blackN, a4), (blackBN, a5), (redN, a6), (redBN, a7), (greenN, a8), (greenBN, a9), (yellowN, a10), (yellowBN, a11), (blueN, a12), (blueBN, a13)] := by simp +decide [dictInsert]

theorem xresIns14 (a1 a2 a3 a4 a5 a6 a7 a8 a9 a10 a11 a12 a13 a14 : Color) :
    dictInsert [(fgN, a1), (bgN, a2), (cursorN, a3), (blackN, a4), (blackBN, a5), (redN, a6), (redBN, a7), (greenN, a8), (greenBN, a9), (yellowN, a10), (yellowBN, a11), (blueN, a12), (blueBN, a13)] magentaN a14 = [(fgN, a1), (bgN, a2), (cursorN, a3), (blackN, a4), (blackBN, a5), (redN, a6), (redBN, a7), (greenN, a8), (greenBN, a9), (yellowN, a10), (yellowBN, a11), (blueN, a12), (blueBN, a13), (magentaN, a14)] := by simp +decide [dictInsert]

theorem xresIns15 (a1 a2 a3 a4 a5 a6 a7 a8 a9 a10 a11 a12 a13 a14 a15 : Color) :
    dictInsert [(fgN, a1), (bgN, a2), (cursorN, a3), (blackN, a4), (blackBN, a5), (redN, a6), (redBN, a7), (greenN, a8), (greenBN, a9), (yellowN, a10), (yellowBN, a11), (blueN, a12), (blueBN, a13), (magentaN, a14)] magentaBN a15 = [(fgN, a1), (bgN, a2), (cursorN, a3), (blackN, a4), (blackBN, a5), (redN, a6), (redBN, a7), (greenN, a8), (greenBN, a9), (yellowN, a10), (yellowBN, a11), (blueN, a12), (blueBN, a13), (magentaN, a14), (magentaBN, a15)] := by simp +decide [dictInsert]

theorem xresIns16 (a1 a2 a3 a4 a5 a6 a7 a8 a9 a10 a11 a12 a13 a14 a15 a16 : Color) :
    dictInsert [(fgN, a1), (bgN, a2), (cursorN, a3), (blackN, a4), (blackBN, a5), (redN, a6), (redBN, a7), (greenN, a8), (greenBN, a9), (yellowN, a10), (yellowBN, a11), (blueN, a12), (blueBN, a13), (magentaN, a14), (magentaBN, a15)] cyanN a16 = [(fgN, a1), (bgN, a2), (cursorN, a3), (blackN, a4), (blackBN, a5), (redN, a6), (redBN, a7), (greenN, a8), (greenBN, a9), (yellowN, a10), (yellowBN, a11), (blueN, a12), (blueBN, a13), (magentaN, a14), (magentaBN, a15), (cyanN, a16)] := by simp +decide [dictInsert]

theorem xresIns17 (a1 a2 a3 a4 a5 a6 a7 a8 a9 a10 a11 a12 a13 a14 a15 a16 a17 : Color) :
    dictInsert [(fgN, a1), (bgN, a2), (cursorN, a3), (blackN, a4), (blackBN, a5), (redN, a6), (redBN, a7), (greenN, a8), (greenBN, a9), (yellowN, a10), (yellowBN, a11), (blueN, a12), (blueBN, a13), (magentaN, a14), (magentaBN, a15), (cyanN, a16)] cyanBN a17 = [(fgN, a1), (bgN, a2), (cursorN, a3), (blackN, a4), (blackBN, a5), (redN, a6), (redBN, a7), (greenN, a8), (greenBN, a9), (yellowN, a10), (yellowBN, a11), (blueN, a12), (blueBN, a13), (magentaN, a14), (magentaBN, a15), (cyanN, a16), (cyanBN, a17)] := by simp +decide [dictInsert]

theorem xresIns18 (a1 a2 a3 a4 a5 a6 a7 a8 a9 a10 a11 a12 a13 a14 a15 a16 a17 a18 : Color) :
    dictInsert [(fgN, a1), (bgN, a2), (cursorN, a3), (blackN, a4), (blackBN, a5), (redN, a6), (redBN, a7), (greenN, a8), (greenBN, a9), (yellowN, a10), (yellowBN, a11), (blueN, a12), (blueBN, a13), (magentaN, a14), (magentaBN, a15), (cyanN, a16), (cyanBN, a17)] whiteN a18 = [(fgN, a1), (bgN, a2), (cursorN, a3), (blackN, a4), (blackBN, a5), (redN, a6), (redBN, a7), (greenN, a8), (greenBN, a9), (yellowN, a10), (yellowBN, a11), (blueN, a12), (blueBN, a13), (magentaN, a14), (magentaBN, a15), (cyanN, a16), (cyanBN, a17), (whiteN, a18)] := by simp +decide [dictInsert]

theorem xresIns19 (a1 a2 a3 a4 a5 a6 a7 a8 a9 a10 a11 a12 a13 a14 a15 a16 a17 a18 a19 : Color) :
    dictInsert [(fgN, a1), (bgN, a2), (cursorN, a3), (blackN, a4), (blackBN, a5), (redN, a6), (redBN, a7), (greenN, a8), (greenBN, a9), (yellowN, a10), (yellowBN, a11), (blueN, a12), (blueBN, a13), (magentaN, a14), (magentaBN, a15), (cyanN, a16), (cyanBN, a17), (whiteN, a18)] whiteBN a19 = [(fgN, a1), (bgN, a2), (cursorN, a3), (blackN, a4), (blackBN, a5), (redN, a6), (redBN, a7), (greenN, a8), (greenBN, a9), (yellowN, a10), (yellowBN, a11), (blueN, a12), (blueBN, a13), (magentaN, a14), (magentaBN, a15), (cyanN, a16), (cyanBN, a17), (whiteN, a18), (whiteBN, a19)] := by simp +decide [dictInsert]

theorem mkTheme_xresDict (a1 a2 a3 a4 a5 a6 a7 a8 a9 a10 a11 a12 a13 a14 a15 a16 a17 a18 a19 : Color) :
    mkTheme [(fgN, a1), (bgN, a2), (cursorN, a3), (blackN, a4), (blackBN, a5), (redN, a6), (redBN, a7), (greenN, a8), (greenBN, a9), (yellowN, a10), (yellowBN, a11), (blueN, a12), (blueBN, a13), (magentaN, a14), (magentaBN, a15), (cyanN, a16), (cyanBN, a17), (whiteN, a18), (whiteBN, a19)]
      = .ok ⟨a1, a2, a4, a6, a8, a10, a12, a14, a16, a18, a5, a7, a9, a11, a13,
          a15, a17, a19, a3, cursorReverseDefault⟩ := by
  simp +decide [mkTheme, dictLookup, themeFields, requiredFields, NAME_FOR]

set_option maxHeartbeats 1600000 in
theorem xres_roundtrip (t : Theme) (ht : t.valid) :
    read_xres (write_xres t)
      = .ok ⟨t.foreground, t.background, t.black, t.red, t.green, t.yellow,
          t.blue, t.magenta, t.cyan, t.white, t.black_bright, t.red_bright,
          t.green_bright, t.yellow_bright, t.blue_bright, t.magenta_bright,
          t.cyan_bright, t.white_bright, t.cursor, cursorReverseDefault⟩ := by
  obtain ⟨v1, v2, v3, v4, v5, v6, v7, v8, v9, v10, v11, v12, v13, v14, v15,
    v16, v17, v18, v19, v20⟩ := ht
  unfold read_xres write_xres
  rw [xresLoop_skip ("! special".toList) _ _ (by decide),
    xresEnc_fgbg fgN fgN _ _ v1 (by decide) (by decide) (by decide) (Or.inl rfl),
    xresIns1,
    xresEnc_fgbg bgN bgN _ _ v2 (by decide) (by decide) (by decide) (Or.inr rfl),
    xresIns2,
    xresEnc_cursor _ _ v19,
    xresIns3,
    xresLoop_skip ([] : List Char) _ _ (by decide),
    xresLoop_skip ('!' :: ' ' :: blackN) _ _ (by decide),
    xresEnc_colorN ("color0".toList) 0 blackN _ _ v3 (by decide) (by decide) (by decide) (by decide) (by decide) (by decide) (by decide) (by decide) (by decide),
    xresIns4,
    xresEnc_colorN ("color8".toList) 8 blackBN _ _ v11 (by decide) (by decide) (by decide) (by decide) (by decide) (by decide) (by decide) (by decide) (by decide),
    xresIns5,
    xresLoop_skip ([] : List Char) _ _ (by decide),
    xresLoop_skip ('!' :: ' ' :: redN) _ _ (by decide),
    xresEnc_colorN ("color1".toList) 1 redN _ _ v4 (by decide) (by decide) (by decide) (by decide) (by decide) (by decide) (by decide) (by decide) (by decide),
    xresIns6,
    xresEnc_colorN ("color9".toList) 9 redBN _ _ v12 (by decide) (by decide) (by decide) (by decide) (by decide) (by decide) (by decide) (by decide) (by decide),
    xresIns7,
    xresLoop_skip ([] : List Char) _ _ (by decide),
    xresLoop_skip ('!' :: ' ' :: greenN) _ _ (by decide),
    xresEnc_colorN ("color2".toList) 2 greenN _ _ v5 (by decide) (by decide) (by decide) (by decide) (by decide) (by decide) (by decide) (by decide) (by decide),
    xresIns8,
    xresEnc_colorN ("color10".toList) 10 greenBN _ _ v13 (by decide) (by decide) (by decide) (by decide) (by decide) (by decide) (by decide) (by decide) (by decide),
    xresIns9,
    xresLoop_skip ([] : List Char) _ _ (by decide),
    xresLoop_skip ('!' :: ' ' :: yellowN) _ _ (by decide),
    xresEnc_colorN ("color3".toList) 3 yellowN _ _ v6 (by decide) (by decide) (by decide) (by decide) (by decide) (by decide) (by decide) (by decide) (by decide),
    xresIns10,
    xresEnc_colorN ("color11".toList) 11 yellowBN _ _ v14 (by decide) (by decide) (by decide) (by decide) (by decide) (by decide) (by decide) (by decide) (by decide),
    xresIns11,
    xresLoop_skip ([] : List Char) _ _ (by decide),
    xresLoop_skip ('!' :: ' ' :: blueN) _ _ (by decide),
    xresEnc_colorN ("color4".toList) 4 blueN _ _ v7 (by decide) (by decide) (by decide) (by decide) (by decide) (by decide) (by decide) (by decide) (by decide),
    xresIns12,
    xresEnc_colorN ("color12".toList) 12 blueBN _ _ v15 (by decide) (by decide) (by decide) (by decide) (by decide) (by decide) (by decide) (by decide) (by decide),
    xresIns13,
    xresLoop_skip ([] : List Char) _ _ (by decide),
    xresLoop_skip ('!' :: ' ' :: magentaN) _ _ (by decide),
    xresEnc_colorN ("color5".toList) 5 magentaN _ _ v8 (by decide) (by decide) (by decide) (by decide) (by decide) (by decide) (by decide) (by decide) (by decide),
    xresIns14,
    xresEnc_colorN ("color13".toList) 13 magentaBN _ _ v16 (by decide) (by decide) (by decide) (by decide) (by decide) (by decide) (by decide) (by decide) (by decide),
    xresIns15,
    xresLoop_skip ([] : List Char) _ _ (by decide),
    xresLoop_skip ('!' :: ' ' :: cyanN) _ _ (by decide),
    xresEnc_colorN ("color6".toList) 6 cyanN _ _ v9 (by decide) (by decide) (by decide) (by decide) (by decide) (by decide) (by decide) (by decide) (by decide),
    xresIns16,
    xresEnc_colorN ("color14".toList) 14 cyanBN _ _ v17 (by decide) (by decide) (by decide) (by decide) (by decide) (by decide) (by decide) (by decide) (by decide),
    xresIns17,
    xresLoop_skip ([] : List Char) _ _ (by decide),
    xresLoop_skip ('!' :: ' ' :: whiteN) _ _ (by decide),
    xresEnc_colorN ("color7".toList) 7 whiteN _ _ v10 (by decide) (by decide) (by decide) (by decide) (by decide) (by decide) (by decide) (by decide) (by decide),
    xresIns18,
    xresEnc_colorN ("color15".toList) 15 whiteBN _ _ v18 (by decide) (by decide) (by decide) (by decide) (by decide) (by decide) (by decide) (by decide) (by decide),
    xresIns19,
    show ∀ d : Dict, xresLoop [] d = .ok d from fun d => rfl,
    exceptBindOk]
  rw [mkTheme_xresDict]

/-! ## Claim theorems -/

/-- C1: for each of the four decoder/encoder pairs over the same field set
(name-value, delimited, x-resource, embedded-config) and every
fully-populated Theme `t`, decoding the encoder's output for `t` yields a
Theme whose re-encoding is byte-identical to the original encoding:
`encode (decode (encode t)) = encode t`. -/
theorem C1_codec_roundtrips (t : Theme) (ht : t.valid) :
    (read_nidx (write_nidx t)).map write_nidx = .ok (write_nidx t) ∧
    (read_csv (write_csv t)).map write_csv = .ok (write_csv t) ∧
    (read_stconf (write_stconf t)).map write_stconf = .ok (write_stconf t) ∧
    (read_xres (write_xres t)).map write_xres = .ok (write_xres t) := by
  refine ⟨?_, ?_, ?_, ?_⟩
  · rw [nidx_roundtrip t ht]; rfl
  · rw [csv_roundtrip t ht]; rfl
  · rw [stconf_roundtrip t ht]; rfl
  · rw [xres_roundtrip t ht]; rfl

/-- A fully-populated example theme with 20 pairwise-distinct colors. -/
def themeEx : Theme :=
  ⟨⟨1, 1, 1⟩, ⟨2, 2, 2⟩, ⟨3, 3, 3⟩, ⟨4, 4, 4⟩, ⟨5, 5, 5⟩, ⟨6, 6, 6⟩,
   ⟨7, 7, 7⟩, ⟨8, 8, 8⟩, ⟨9, 9, 9⟩, ⟨10, 10, 10⟩, ⟨11, 11, 11⟩, ⟨12, 12, 12⟩,
   ⟨13, 13, 13⟩, ⟨14, 14, 14⟩, ⟨15, 15, 15⟩, ⟨16, 16, 16⟩, ⟨17, 17, 17⟩,
   ⟨18, 18, 18⟩, ⟨19, 19, 19⟩, ⟨20, 20, 20⟩⟩

/-- Witness for C1 at the concrete theme `themeEx`. -/
theorem C1_codec_roundtrips_witness :
    themeEx.valid ∧
      ((read_nidx (write_nidx themeEx)).map write_nidx = .ok (write_nidx themeEx) ∧
       (read_csv (write_csv themeEx)).map write_csv = .ok (write_csv themeEx) ∧
       (read_stconf (write_stconf themeEx)).map write_stconf
         = .ok (write_stconf themeEx) ∧
       (read_xres (write_xres themeEx)).map write_xres
         = .ok (write_xres themeEx)) :=
  ⟨by decide, C1_codec_roundtrips themeEx (by decide)⟩

/-- C2: every decoder that collects fields ends in `Theme(**color_dict)`
(`mkTheme`); that step fails whenever one of the 18 required slots is
unset, and populates `cursor`/`cursor_reverse` with the documented defaults
`#cccccc`/`#555555` when they are absent from the collected fields. -/
theorem C2_missing_fields :
    (∀ (d : Dict) (k : List Char), k ∈ requiredFields → dictLookup d k = none →
      mkTheme d = .error .typeError) ∧
    (∀ (d : Dict) (t : Theme), mkTheme d = .ok t → dictLookup d cursorN = none →
      t.cursor = cursorDefault) ∧
    (∀ (d : Dict) (t : Theme), mkTheme d = .ok t → dictLookup d cursorRevN = none →
      t.cursor_reverse = cursorReverseDefault) ∧
    (Color.parse "#cccccc".toList = .ok cursorDefault ∧
     Color.parse "#555555".toList = .ok cursorReverseDefault) ∧
    ((∀ ls, read_nidx ls = nidxLoop 0 ls [] >>= mkTheme) ∧
     (∀ ls, read_csv ls = csvLoop 0 ls [] >>= mkTheme) ∧
     (∀ ls, read_stconf ls = stconfLoop 0 ls [] >>= mkTheme) ∧
     (∀ ls, read_xres ls = xresLoop ls [] >>= mkTheme)) := by
  refine ⟨?_, ?_, ?_, ⟨by decide, by decide⟩, fun ls => rfl, fun ls => rfl,
    fun ls => rfl, fun ls => rfl⟩
  · intro d k hk hnone
    have h2 : (requiredFields.all fun k' => (dictLookup d k').isSome) = false := by
      refine List.all_eq_false.mpr ⟨k, hk, ?_⟩
      simp [hnone]
    unfold mkTheme
    rw [h2, Bool.and_false]
    simp
  · intro d t h hcur
    unfold mkTheme at h
    split at h
    · rw [← Except.ok.inj h]
      simp [hcur]
    · exact absurd h (by simp)
  · intro d t h hcur
    unfold mkTheme at h
    split at h
    · rw [← Except.ok.inj h]
      simp [hcur]
    · exact absurd h (by simp)

/-- Witness for C2: the empty dict misses `foreground` and fails; a dict
with exactly the 18 required fields succeeds with the default cursors. -/
theorem C2_missing_fields_witness :
    fgN ∈ requiredFields ∧ dictLookup [] fgN = none ∧
      mkTheme [] = .error .typeError := by
  refine ⟨by decide, rfl, ?_⟩
  exact C2_missing_fields.1 [] fgN (by decide) rfl

/-- The concrete stconf fragment for C3: 16 unannotated literals, an
explicit `[256]`, an unannotated literal that must land on 257
(foreground), then trailing garbage that must be ignored without error. -/
def c3demo : List (List Char) :=
  (["\"#000000\",", "\"#010101\",", "\"#020202\",", "\"#030303\",",
    "\"#040404\",", "\"#050505\",", "\"#060606\",", "\"#070707\",",
    "\"#080808\",", "\"#090909\",", "\"#0a0a0a\",", "\"#0b0b0b\",",
    "\"#0c0c0c\",", "\"#0d0d0d\",", "\"#0e0e0e\",", "\"#0f0f0f\",",
    "[256] = \"#000000\",", "\"#ffffff\",",
    "[999] = \"#123456\", trailing garbage"]).map String.toList

/-- C3: the embedded-config decoder's running index starts at 0 and is
incremented after each recognized quoted literal; an explicit `[n] =`
resets it to `n` before recording; 0–15 map to the 16 ANSI names in
canonical order, 256 to `background`, 257 to `foreground`; after an
explicit `[256]` an immediately following unannotated literal is recorded
as index 257 (`foreground`); once the running index exceeds 257 scanning
stops, so trailing content is ignored without error; a recognized literal
whose index is outside `{0–15, 256, 257}` makes the decoder fail. -/
theorem C3_stconf_running_index :
    (∀ n : Nat, n < 16 → stconfColorFor n = NAME_FOR.get? n) ∧
    stconfColorFor 256 = some bgN ∧
    stconfColorFor 257 = some fgN ∧
    (∀ n : Nat, ¬(n < 16 ∨ n = 256 ∨ n = 257) → stconfColorFor n = none) ∧
    (∀ (i n : Nat) (ds : List Char) (c : Color) (rest : List Char)
       (ls : List (List Char)) (d : Dict) (name : List Char),
       ds ≠ [] → (∀ ch ∈ ds, isDigit ch = true) → c.valid →
       digitsToNat ds = n → stconfColorFor n = some name → n + 1 ≤ 257 →
       stconfLoop i
           (('[' :: (ds ++ (']' :: ' ' :: '=' :: ' ' :: ('"' :: (c.hex ++ ('"' :: rest)))))) :: ls) d
         = stconfLoop (n + 1) ls (dictInsert d name c)) ∧
    (∀ (i : Nat) (c : Color) (rest : List Char) (ls : List (List Char))
       (d : Dict) (name : List Char),
       c.valid → stconfColorFor i = some name → i + 1 ≤ 257 →
       stconfLoop i (('"' :: (c.hex ++ ('"' :: rest))) :: ls) d
         = stconfLoop (i + 1) ls (dictInsert d name c)) ∧
    (∀ (c : Color) (rest : List Char) (ls : List (List Char)) (d : Dict),
       c.valid →
       stconfLoop 257 (('"' :: (c.hex ++ ('"' :: rest))) :: ls) d
         = .ok (dictInsert d fgN c)) ∧
    (∀ (i n : Nat) (ds : List Char) (c : Color) (rest : List Char)
       (ls : List (List Char)) (d : Dict),
       ds ≠ [] → (∀ ch ∈ ds, isDigit ch = true) → c.valid →
       digitsToNat ds = n → ¬(n < 16 ∨ n = 256 ∨ n = 257) →
       stconfLoop i
           (('[' :: (ds ++ (']' :: ' ' :: '=' :: ' ' :: ('"' :: (c.hex ++ ('"' :: rest)))))) :: ls) d
         = .error .keyError) ∧
    (∀ (i : Nat) (c : Color) (rest : List Char) (ls : List (List Char))
       (d : Dict),
       c.valid → ¬(i < 16 ∨ i = 256 ∨ i = 257) →
       stconfLoop i (('"' :: (c.hex ++ ('"' :: rest))) :: ls) d
         = .error .keyError) ∧
    read_stconf c3demo
      = .ok
        { foreground := ⟨255, 255, 255⟩, background := ⟨0, 0, 0⟩
          black := ⟨0, 0, 0⟩, red := ⟨1, 1, 1⟩, green := ⟨2, 2, 2⟩
          yellow := ⟨3, 3, 3⟩, blue := ⟨4, 4, 4⟩, magenta := ⟨5, 5, 5⟩
          cyan := ⟨6, 6, 6⟩, white := ⟨7, 7, 7⟩
          black_bright := ⟨8, 8, 8⟩, red_bright := ⟨9, 9, 9⟩
          green_bright := ⟨10, 10, 10⟩, yellow_bright := ⟨11, 11, 11⟩
          blue_bright := ⟨12, 12, 12⟩, magenta_bright := ⟨13, 13, 13⟩
          cyan_bright := ⟨14, 14, 14⟩, white_bright := ⟨15, 15, 15⟩
          cursor := cursorDefault, cursor_reverse := cursorReverseDefault } := by
  have hmapNone : ∀ n : Nat, ¬(n < 16 ∨ n = 256 ∨ n = 257) →
      stconfColorFor n = none := by
    intro n hn
    push_neg at hn
    obtain ⟨h16, h256, h257⟩ := hn
    unfold stconfColorFor
    rw [if_neg h256, if_neg h257]
    have hlen : NAME_FOR.length = 16 := by decide
    exact List.get?_eq_none.mpr (by omega)
  refine ⟨?_, by decide, by decide, hmapNone, ?_, ?_, ?_, ?_, ?_, by decide⟩
  · intro n hn
    unfold stconfColorFor
    rw [if_neg (by omega), if_neg (by omega)]
  · intro i n ds c rest ls d name h1 h2 h3 h4 h5 h6
    exact stconfLoop_idx_cont i n ds rest ls d name h1 h2 h3 h4 h5 h6
  · intro i c rest ls d name h1 h2 h3
    exact stconfLoop_bare_cont i rest ls d name h1 h2 h3
  · intro c rest ls d h
    exact stconfLoop_bare_last rest ls d h
  · intro i n ds c rest ls d h1 h2 h3 h4 h5
    exact stconfLoop_idx_err i n ds rest ls d h1 h2 h3 h4 (hmapNone n h5)
  · intro i c rest ls d h1 h2
    exact stconfLoop_bare_err i rest ls d h1 (hmapNone i h2)

/-- Witness for C3: an explicit `[2] =` line resets the running index from
9 to 2 and records `green`. -/
theorem C3_stconf_running_index_witness :
    (['2'] : List Char) ≠ [] ∧ (∀ ch ∈ (['2'] : List Char), isDigit ch = true) ∧
      Color.valid ⟨1, 2, 3⟩ ∧ digitsToNat ['2'] = 2 ∧
      stconfColorFor 2 = some greenN ∧ 2 + 1 ≤ 257 ∧
      stconfLoop 9
          (('[' :: (['2'] ++ (']' :: ' ' :: '=' :: ' ' ::
            ('"' :: (Color.hex ⟨1, 2, 3⟩ ++ ('"' :: [])))))) :: []) []
        = stconfLoop (2 + 1) [] (dictInsert [] greenN ⟨1, 2, 3⟩) :=
  ⟨by decide, by decide, by decide, by decide, by decide, by decide,
   C3_stconf_running_index.2.2.2.2.1 9 2 ['2'] ⟨1, 2, 3⟩ [] [] [] greenN
     (by decide) (by decide) (by decide) (by decide) (by decide) (by decide)⟩

theorem exceptBindErr {α β : Type} (e : Err) (f : α → Except Err β) :
    ((Except.error e : Except Err α) >>= f) = .error e := rfl

/-- When the `colors` value is a string, every `doc['colors'][...]` access
in the alacritty decoder raises `TypeError`, so the decoder fails. -/
theorem alacritty_colors_str (doc : YDoc) (s : List Char)
    (h : lookupY doc "colors".toList = some (.str s)) :
    read_yaml_alacritty doc = .error .typeError := by
  have h1 : ySub (.map doc) "colors".toList = .ok (.str s) := by
    unfold ySub
    dsimp only
    rw [h]
  have hcol : alacrittyColor doc "primary".toList fgN = .error .typeError := by
    unfold alacrittyColor
    rw [h1, exceptBindOk]
    rfl
  unfold read_yaml_alacritty
  rw [hcol, exceptBindErr]

/-- C4: structured-document dispatch. A document containing `color_01` is
decoded with the flat numbered-key convention (`read_yaml_gogh`), even if
it also contains a `colors` key; a document without `color_01` whose
`colors` table contains `primary` is decoded with the nested-table
convention (`read_yaml_alacritty`); a document matching neither shape makes
the decoder fail. -/
theorem C4_yaml_dispatch :
    (∀ doc : YDoc, (lookupY doc "color_01".toList).isSome →
      read_yaml doc = read_yaml_gogh doc) ∧
    (∀ (doc m : YDoc), lookupY doc "color_01".toList = none →
      lookupY doc "colors".toList = some (.map m) →
      (lookupY m "primary".toList).isSome →
      read_yaml doc = read_yaml_alacritty doc) ∧
    (∀ doc : YDoc, lookupY doc "color_01".toList = none →
      (∀ m : YDoc, lookupY doc "colors".toList = some (.map m) →
        lookupY m "primary".toList = none) →
      ∃ e, read_yaml doc = .error e) := by
  refine ⟨?_, ?_, ?_⟩
  · intro doc h
    unfold read_yaml
    rw [if_pos h]
  · intro doc m h1 h2 h3
    unfold read_yaml
    rw [if_neg (by rw [h1]; decide), if_pos (by rw [h2]; exact h3)]
  · intro doc h1 hm
    unfold read_yaml
    rw [if_neg (by rw [h1]; decide)]
    cases hcol : lookupY doc "colors".toList with
    | none => exact ⟨.yamlError, by rw [if_neg (by decide)]⟩
    | some v =>
      cases v with
      | str s =>
        by_cases hin : isInfixChars "primary".toList s = true
        · refine ⟨.typeError, ?_⟩
          have hc : (match some (YVal.str s) with
              | some v => pyIn "primary".toList v
              | none => false) = true := hin
          rw [if_pos hc]
          exact alacritty_colors_str doc s hcol
        · refine ⟨.yamlError, ?_⟩
          have hc : ¬((match some (YVal.str s) with
              | some v => pyIn "primary".toList v
              | none => false) = true) := hin
          rw [if_neg hc]
      | map m =>
        have hnone := hm m hcol
        refine ⟨.yamlError, ?_⟩
        have hc : ¬((match some (YVal.map m) with
            | some v => pyIn "primary".toList v
            | none => false) = true) := by
          intro hh
          have h2 : (lookupY m "primary".toList).isSome = true := hh
          rw [hnone] at h2
          exact absurd h2 (by decide)
        rw [if_neg hc]

/-- Witness for C4 on small concrete documents: one with `color_01` and an
unrelated `colors` key routes to the gogh decoder; one with
`colors.primary` routes to the alacritty decoder; an empty document fails. -/
theorem C4_yaml_dispatch_witness :
    (lookupY [("color_01".toList, YVal.str "#aabbcc".toList),
        ("colors".toList, YVal.str "x".toList)] "color_01".toList).isSome ∧
    read_yaml [("color_01".toList, YVal.str "#aabbcc".toList),
        ("colors".toList, YVal.str "x".toList)]
      = read_yaml_gogh [("color_01".toList, YVal.str "#aabbcc".toList),
          ("colors".toList, YVal.str "x".toList)] ∧
    read_yaml [("colors".toList, YVal.map [("primary".toList, YVal.map [])])]
      = read_yaml_alacritty
          [("colors".toList, YVal.map [("primary".toList, YVal.map [])])] := by
  refine ⟨by decide, ?_, ?_⟩
  · exact C4_yaml_dispatch.1 _ (by decide)
  · exact C4_yaml_dispatch.2.1 _ [("primary".toList, YVal.map [])] rfl rfl
      (by decide)

/-! ## Claim C5: the terminal-control encoder -/

theorem belShape (A : List Char) {c : Color} (hc : c.valid) (hA : '\x07' ∉ A) :
    ((A ++ (';' :: c.hex)) ++ ['\x07']).getLast? = some '\x07' ∧
      '\x07' ∉ ((A ++ (';' :: c.hex)) ++ ['\x07']).dropLast := by
  constructor
  · exact List.getLast?_concat _
  · rw [List.dropLast_concat]
    intro hmem
    rcases List.mem_append.1 hmem with h | h
    · exact hA h
    · rcases List.mem_cons.1 h with h | h
      · exact absurd h (by decide)
      · exact absurd (hex_mem_charset hc _ h) (by decide)

/-- C5 counterexample: the claimed emission order (palette indices 0–15 in
a row) differs from the program's output on a concrete theme — `write_osc`
interleaves each normal index with its bright partner (0, 8, 1, 9, …). -/
theorem C5_osc_counterexample : write_osc themeEx ≠ write_osc_specOrder themeEx := by
  decide

/-- C5 (amended): `write_osc` emits exactly 19 escape sequences with no
separators, one OSC 4 per palette index 0–15 emitted as interleaved
normal/bright pairs (4;0, 4;8, 4;1, 4;9, …), followed by OSC 10
(foreground), OSC 11 (background) and OSC 12 (cursor), each sequence
terminated by the BEL byte (which appears nowhere else in a sequence). -/
theorem C5_osc_amended (t : Theme) (ht : t.valid) :
    write_osc t = (oscSeqs t).foldr (· ++ ·) [] ∧
    (oscSeqs t).length = 19 ∧
    (∀ s ∈ oscSeqs t, s.getLast? = some '\x07' ∧ '\x07' ∉ s.dropLast) ∧
    oscSeqs t
      = [osc4 0 t.black, osc4 8 t.black_bright, osc4 1 t.red,
         osc4 9 t.red_bright, osc4 2 t.green, osc4 10 t.green_bright,
         osc4 3 t.yellow, osc4 11 t.yellow_bright, osc4 4 t.blue,
         osc4 12 t.blue_bright, osc4 5 t.magenta, osc4 13 t.magenta_bright,
         osc4 6 t.cyan, osc4 14 t.cyan_bright, osc4 7 t.white,
         osc4 15 t.white_bright, oscN 10 t.foreground, oscN 11 t.background,
         oscN 12 t.cursor] := by
  obtain ⟨v1, v2, v3, v4, v5, v6, v7, v8, v9, v10, v11, v12, v13, v14, v15,
    v16, v17, v18, v19, v20⟩ := ht
  refine ⟨rfl, rfl, ?_, rfl⟩
  intro s hs
  simp only [oscSeqs, osc4, oscN, List.mem_cons, List.not_mem_nil, or_false] at hs
  rcases hs with rfl | rfl | rfl | rfl | rfl | rfl | rfl | rfl | rfl | rfl |
    rfl | rfl | rfl | rfl | rfl | rfl | rfl | rfl | rfl <;>
    first
    | exact belShape _ v3 (by decide) | exact belShape _ v11 (by decide)
    | exact belShape _ v4 (by decide) | exact belShape _ v12 (by decide)
    | exact belShape _ v5 (by decide) | exact belShape _ v13 (by decide)
    | exact belShape _ v6 (by decide) | exact belShape _ v14 (by decide)
    | exact belShape _ v7 (by decide) | exact belShape _ v15 (by decide)
    | exact belShape _ v8 (by decide) | exact belShape _ v16 (by decide)
    | exact belShape _ v9 (by decide) | exact belShape _ v17 (by decide)
    | exact belShape _ v10 (by decide) | exact belShape _ v18 (by decide)
    | exact belShape _ v1 (by decide) | exact belShape _ v2 (by decide)
    | exact belShape _ v19 (by decide)

/-- Witness for C5 (amended) at the concrete theme `themeEx`. -/
theorem C5_osc_amended_witness :
    themeEx.valid ∧
      (write_osc themeEx = (oscSeqs themeEx).foldr (· ++ ·) [] ∧
       (oscSeqs themeEx).length = 19 ∧
       (∀ s ∈ oscSeqs themeEx, s.getLast? = some '\x07' ∧ '\x07' ∉ s.dropLast) ∧
       oscSeqs themeEx
         = [osc4 0 themeEx.black, osc4 8 themeEx.black_bright,
            osc4 1 themeEx.red, osc4 9 themeEx.red_bright,
            osc4 2 themeEx.green, osc4 10 themeEx.green_bright,
            osc4 3 themeEx.yellow, osc4 11 themeEx.yellow_bright,
            osc4 4 themeEx.blue, osc4 12 themeEx.blue_bright,
            osc4 5 themeEx.magenta, osc4 13 themeEx.magenta_bright,
            osc4 6 themeEx.cyan, osc4 14 themeEx.cyan_bright,
            osc4 7 themeEx.white, osc4 15 themeEx.white_bright,
            oscN 10 themeEx.foreground, oscN 11 themeEx.background,
            oscN 12 themeEx.cursor]) :=
  ⟨by decide, C5_osc_amended themeEx (by decide)⟩

/-! ## Claims C6/C7: the color codec -/

theorem hexDigit_cases {d : Char} (h : isHexDigit d = true) :
    hexVal d < 16 ∧ Nat.digitChar (hexVal d) = pyLower d := by
  have hm : d ∈ hexDigits := by
    unfold isHexDigit at h
    simpa using h
  fin_cases hm <;> exact ⟨by decide, by decide⟩

theorem ds_six {ds : List Char} (hlen : ds.length = 6) :
    ∃ d0 d1 d2 d3 d4 d5, ds = [d0, d1, d2, d3, d4, d5] := by
  rcases ds with _ | ⟨d0, ds⟩
  · simp at hlen
  rcases ds with _ | ⟨d1, ds⟩
  · simp at hlen
  rcases ds with _ | ⟨d2, ds⟩
  · simp at hlen
  rcases ds with _ | ⟨d3, ds⟩
  · simp at hlen
  rcases ds with _ | ⟨d4, ds⟩
  · simp at hlen
  rcases ds with _ | ⟨d5, ds⟩
  · simp at hlen
  rcases ds with _ | ⟨d6, ds⟩
  · exact ⟨d0, d1, d2, d3, d4, d5, rfl⟩
  · simp at hlen

/-- C6: parsing a `#`- or `0x`-prefixed string of 6 hex digits in any
letter case succeeds, and rendering the result gives `#` followed by the
same six digits lowercased; rendering any valid Color always yields `#`
followed by exactly six lowercase hex digits. -/
theorem C6_color_canonical :
    (∀ pfx ds : List Char, (pfx = ['#'] ∨ pfx = ['0', 'x']) → ds.length = 6 →
      (∀ d ∈ ds, isHexDigit d = true) →
      ∃ c : Color, Color.parse (pfx ++ ds) = .ok c ∧ c.valid ∧
        c.hex = '#' :: ds.map pyLower) ∧
    (∀ c : Color, c.valid → (Color.hex c).length = 7 ∧
      (Color.hex c).head? = some '#' ∧
      ∀ ch ∈ (Color.hex c).drop 1, ch ∈ lowHexDigits) := by
  constructor
  · intro pfx ds hpfx hlen hhex
    obtain ⟨d0, d1, d2, d3, d4, d5, rfl⟩ := ds_six hlen
    have hx0 : isHexDigit d0 = true := hhex d0 (by simp)
    have hx1 : isHexDigit d1 = true := hhex d1 (by simp)
    have hx2 : isHexDigit d2 = true := hhex d2 (by simp)
    have hx3 : isHexDigit d3 = true := hhex d3 (by simp)
    have hx4 : isHexDigit d4 = true := hhex d4 (by simp)
    have hx5 : isHexDigit d5 = true := hhex d5 (by simp)
    have h0 := hexDigit_cases hx0
    have h1 := hexDigit_cases hx1
    have h2 := hexDigit_cases hx2
    have h3 := hexDigit_cases hx3
    have h4 := hexDigit_cases hx4
    have h5 := hexDigit_cases hx5
    refine ⟨colorOfHex d0 d1 d2 d3 d4 d5, ?_, ?_, ?_⟩
    · rcases hpfx with rfl | rfl <;>
        simp [Color.parse, parseHex6, hx0, hx1, hx2, hx3, hx4, hx5]
    · unfold colorOfHex Color.valid
      dsimp only
      obtain ⟨g0, _⟩ := h0
      obtain ⟨g1, _⟩ := h1
      obtain ⟨g2, _⟩ := h2
      obtain ⟨g3, _⟩ := h3
      obtain ⟨g4, _⟩ := h4
      obtain ⟨g5, _⟩ := h5
      refine ⟨by omega, by omega, by omega⟩
    · have hv : (colorOfHex d0 d1 d2 d3 d4 d5).valid := by
        unfold colorOfHex Color.valid
        dsimp only
        obtain ⟨g0, _⟩ := h0
        obtain ⟨g1, _⟩ := h1
        obtain ⟨g2, _⟩ := h2
        obtain ⟨g3, _⟩ := h3
        obtain ⟨g4, _⟩ := h4
        obtain ⟨g5, _⟩ := h5
        refine ⟨by omega, by omega, by omega⟩
      rw [hex_explicit hv]
      have e0 : (16 * hexVal d0 + hexVal d1) / 16 = hexVal d0 := by omega
      have e1 : (16 * hexVal d0 + hexVal d1) % 16 = hexVal d1 := by
        have := h1.1
        omega
      have e2 : (16 * hexVal d2 + hexVal d3) / 16 = hexVal d2 := by omega
      have e3 : (16 * hexVal d2 + hexVal d3) % 16 = hexVal d3 := by
        have := h3.1
        omega
      have e4 : (16 * hexVal d4 + hexVal d5) / 16 = hexVal d4 := by omega
      have e5 : (16 * hexVal d4 + hexVal d5) % 16 = hexVal d5 := by
        have := h5.1
        omega
      simp only [colorOfHex, e0, e1, e2, e3, e4, e5, h0.2, h1.2, h2.2, h3.2,
        h4.2, h5.2, List.map_cons, List.map_nil]
  · intro c hc
    refine ⟨?_, ?_, ?_⟩
    · rw [hex_explicit hc]
      rfl
    · exact hex_head c
    · intro ch hch
      rw [hex_explicit hc] at hch
      obtain ⟨hr, hg, hb⟩ := hc
      simp only [List.drop_succ_cons, List.drop_zero, List.mem_cons,
        List.not_mem_nil, or_false] at hch
      rcases hch with rfl | rfl | rfl | rfl | rfl | rfl <;>
        exact (digitChar_facts (by omega)).2.2

/-- Witness for C6: parsing `0xAbCdEf` and rendering the result. -/
theorem C6_color_canonical_witness :
    ∃ c : Color, Color.parse (['0', 'x'] ++ "AbCdEf".toList) = .ok c ∧ c.valid ∧
      c.hex = '#' :: "AbCdEf".toList.map pyLower :=
  C6_color_canonical.1 ['0', 'x'] "AbCdEf".toList (Or.inr rfl) (by decide)
    (by decide)

/-- C7 counterexample: the claim says `Color.parse` extracts a prefixed
hex run located anywhere in the string, in particular after leading
punctuation or quotes; the code anchors at the start (`re.match`), so a
leading quote makes it fail. -/
theorem C7_parse_counterexample :
    Color.parse ("\"#aabbcc\"".toList)
      = .error (.colorFormatError ("\"#aabbcc\"".toList)) := by decide

theorem parseHex6_some {cs : List Char} {c : Color} (h : parseHex6 cs = some c) :
    ∃ ds rest, cs = ds ++ rest ∧ ds.length = 6 ∧ ∀ d ∈ ds, isHexDigit d = true := by
  rcases cs with _ | ⟨d0, cs⟩
  · exact absurd h (by simp [parseHex6])
  rcases cs with _ | ⟨d1, cs⟩
  · exact absurd h (by simp [parseHex6])
  rcases cs with _ | ⟨d2, cs⟩
  · exact absurd h (by simp [parseHex6])
  rcases cs with _ | ⟨d3, cs⟩
  · exact absurd h (by simp [parseHex6])
  rcases cs with _ | ⟨d4, cs⟩
  · exact absurd h (by simp [parseHex6])
  rcases cs with _ | ⟨d5, cs⟩
  · exact absurd h (by simp [parseHex6])
  unfold parseHex6 at h
  dsimp only at h
  by_cases hcond : (isHexDigit d0 && isHexDigit d1 && isHexDigit d2 &&
      isHexDigit d3 && isHexDigit d4 && isHexDigit d5) = true
  · simp only [Bool.and_eq_true] at hcond
    obtain ⟨⟨⟨⟨⟨g0, g1⟩, g2⟩, g3⟩, g4⟩, g5⟩ := hcond
    refine ⟨[d0, d1, d2, d3, d4, d5], cs, by simp, rfl, ?_⟩
    intro d hd
    simp only [List.mem_cons, List.not_mem_nil, or_false] at hd
    rcases hd with rfl | rfl | rfl | rfl | rfl | rfl <;> assumption
  · rw [if_neg hcond] at h
    exact absurd h (by simp)

theorem parseHex6_of_digits (ds rest : List Char) (hlen : ds.length = 6)
    (hhex : ∀ d ∈ ds, isHexDigit d = true) :
    ∃ c, parseHex6 (ds ++ rest) = some c := by
  obtain ⟨d0, d1, d2, d3, d4, d5, rfl⟩ := ds_six hlen
  have hx0 : isHexDigit d0 = true := hhex d0 (by simp)
  have hx1 : isHexDigit d1 = true := hhex d1 (by simp)
  have hx2 : isHexDigit d2 = true := hhex d2 (by simp)
  have hx3 : isHexDigit d3 = true := hhex d3 (by simp)
  have hx4 : isHexDigit d4 = true := hhex d4 (by simp)
  have hx5 : isHexDigit d5 = true := hhex d5 (by simp)
  exact ⟨colorOfHex d0 d1 d2 d3 d4 d5,
    by simp [parseHex6, hx0, hx1, hx2, hx3, hx4, hx5]⟩

/-- C7 (amended): `Color.parse` succeeds exactly on strings that *begin*
with `#` or `0x` followed by at least six hex digits (the first six are
taken; trailing content is ignored); it fails on every other string, even
one containing a prefixed hex run after the first character. -/
theorem C7_parse_amended (s : List Char) :
    (∃ c : Color, Color.parse s = .ok c) ↔
      ∃ ds rest : List Char,
        (s = '#' :: (ds ++ rest) ∨ s = '0' :: 'x' :: (ds ++ rest)) ∧
        ds.length = 6 ∧ ∀ d ∈ ds, isHexDigit d = true := by
  constructor
  · rintro ⟨c, hc⟩
    unfold Color.parse at hc
    split at hc
    · rename_i rest0
      cases hp : parseHex6 rest0 with
      | none => rw [hp] at hc; exact absurd hc (by simp)
      | some c' =>
        obtain ⟨ds, rest, heq, hlen, hhex⟩ := parseHex6_some hp
        exact ⟨ds, rest, Or.inl (by rw [heq]), hlen, hhex⟩
    · rename_i rest0
      cases hp : parseHex6 rest0 with
      | none => rw [hp] at hc; exact absurd hc (by simp)
      | some c' =>
        obtain ⟨ds, rest, heq, hlen, hhex⟩ := parseHex6_some hp
        exact ⟨ds, rest, Or.inr (by rw [heq]), hlen, hhex⟩
    · exact absurd hc (by simp)
  · rintro ⟨ds, rest, hor, hlen, hhex⟩
    obtain ⟨c, hc⟩ := parseHex6_of_digits ds rest hlen hhex
    rcases hor with rfl | rfl
    · exact ⟨c, by simp [Color.parse, hc]⟩
    · exact ⟨c, by simp [Color.parse, hc]⟩

/-- Witness for C7 (amended) at a concrete string with trailing junk. -/
theorem C7_parse_amended_witness :
    (∃ c : Color, Color.parse ("#ff0011zz".toList) = .ok c) ↔
      ∃ ds rest : List Char,
        ("#ff0011zz".toList = '#' :: (ds ++ rest) ∨
          "#ff0011zz".toList = '0' :: 'x' :: (ds ++ rest)) ∧
        ds.length = 6 ∧ ∀ d ∈ ds, isHexDigit d = true :=
  C7_parse_amended ("#ff0011zz".toList)

/-! ## Claim C8: line-numbered format errors -/

/-- A line the nidx loop passes without error: a comment, or two
whitespace-separated tokens whose second parses as a color. -/
def nidxGoodLine (l : List Char) : Prop :=
  l.head? = some '#' ∨ ∃ n v c, splitWs l = [n, v] ∧ Color.parse v = .ok c

/-- A line the csv loop passes without error. -/
def csvGoodLine (l : List Char) : Prop :=
  l.head? = some '#' ∨ ∃ n v c, splitComma l = [n, v] ∧ Color.parse v = .ok c

theorem nidxLoop_badline (pre : List (List Char)) (l : List Char) :
    ∀ (suf : List (List Char)) (i : Nat) (d : Dict),
      (∀ l' ∈ pre, nidxGoodLine l') → ¬(l.head? = some '#') →
      (splitWs l).length ≠ 2 →
      nidxLoop i (pre ++ l :: suf) d = .error (.formatError (i + pre.length)) := by
  induction pre with
  | nil =>
    intro suf i d _ hl hsp
    simp only [List.nil_append, nidxLoop, List.length_nil, Nat.add_zero]
    rw [if_neg hl]
    rcases h : splitWs l with _ | ⟨a, _ | ⟨b, _ | t⟩⟩
    · rfl
    · rfl
    · rw [h] at hsp; simp at hsp
    · rfl
  | cons l' pre' ih =>
    intro suf i d hgood hl hsp
    have hgl' := hgood l' (by simp)
    have hrec : i + (l' :: pre').length = (i + 1) + pre'.length := by
      simp only [List.length_cons]
      omega
    rw [hrec]
    have htail : ∀ x ∈ pre', nidxGoodLine x := fun x hx => hgood x (by simp [hx])
    rcases hgl' with hcom | ⟨n, v, c, hsplit, hparse⟩
    · simp only [List.cons_append, nidxLoop, hcom, if_pos rfl, if_true]
      exact ih suf (i + 1) d htail hl hsp
    · simp only [List.cons_append, nidxLoop]
      by_cases hcm : l'.head? = some '#'
      · rw [if_pos hcm]
        exact ih suf (i + 1) d htail hl hsp
      · rw [if_neg hcm]
        simp only [hsplit, hparse]
        exact ih suf (i + 1) (dictInsert d n c) htail hl hsp

theorem csvLoop_badline (pre : List (List Char)) (l : List Char) :
    ∀ (suf : List (List Char)) (i : Nat) (d : Dict),
      (∀ l' ∈ pre, csvGoodLine l') → ¬(l.head? = some '#') →
      (splitComma l).length ≠ 2 →
      csvLoop i (pre ++ l :: suf) d = .error (.formatError (i + pre.length)) := by
  induction pre with
  | nil =>
    intro suf i d _ hl hsp
    simp only [List.nil_append, csvLoop, List.length_nil, Nat.add_zero]
    rw [if_neg hl]
    rcases h : splitComma l with _ | ⟨a, _ | ⟨b, _ | t⟩⟩
    · rfl
    · rfl
    · rw [h] at hsp; simp at hsp
    · rfl
  | cons l' pre' ih =>
    intro suf i d hgood hl hsp
    have hgl' := hgood l' (by simp)
    have hrec : i + (l' :: pre').length = (i + 1) + pre'.length := by
      simp only [List.length_cons]
      omega
    rw [hrec]
    have htail : ∀ x ∈ pre', csvGoodLine x := fun x hx => hgood x (by simp [hx])
    rcases hgl' with hcom | ⟨n, v, c, hsplit, hparse⟩
    · simp only [List.cons_append, csvLoop, hcom, if_pos rfl, if_true]
      exact ih suf (i + 1) d htail hl hsp
    · simp only [List.cons_append, csvLoop]
      by_cases hcm : l'.head? = some '#'
      · rw [if_pos hcm]
        exact ih suf (i + 1) d htail hl hsp
      · rw [if_neg hcm]
        simp only [hsplit, hparse]
        exact ih suf (i + 1) (dictInsert d n c) htail hl hsp

/-- C8: whenever a non-comment line of the name-value input does not split
into exactly two whitespace-separated tokens (blank lines, one token, three
or more tokens), the decoder fails with the format error carrying that
line's number (the 0-based `enumerate` index); the delimited decoder has
the identical contract with `,` as separator. -/
theorem C8_line_numbered_errors :
    (∀ (pre : List (List Char)) (l : List Char) (suf : List (List Char)),
      (∀ l' ∈ pre, nidxGoodLine l') → ¬(l.head? = some '#') →
      (splitWs l).length ≠ 2 →
      read_nidx (pre ++ l :: suf) = .error (.formatError pre.length)) ∧
    (∀ (pre : List (List Char)) (l : List Char) (suf : List (List Char)),
      (∀ l' ∈ pre, csvGoodLine l') → ¬(l.head? = some '#') →
      (splitComma l).length ≠ 2 →
      read_csv (pre ++ l :: suf) = .error (.formatError pre.length)) := by
  constructor
  · intro pre l suf hgood hl hsp
    unfold read_nidx
    rw [nidxLoop_badline pre l suf 0 [] hgood hl hsp]
    rw [Nat.zero_add]
    rfl
  · intro pre l suf hgood hl hsp
    unfold read_csv
    rw [csvLoop_badline pre l suf 0 [] hgood hl hsp]
    rw [Nat.zero_add]
    rfl

/-- Witness for C8: a one-token second line after a good first line fails
with the format error naming line 1. -/
theorem C8_line_numbered_errors_witness :
    read_nidx ["foreground #ffffff".toList, "one".toList, "x y".toList]
      = .error (.formatError 1) :=
  C8_line_numbered_errors.1 ["foreground #ffffff".toList] "one".toList
    ["x y".toList]
    (fun l' hl' => by
      simp only [List.mem_singleton] at hl'
      subst hl'
      exact Or.inr ⟨"foreground".toList, "#ffffff".toList, ⟨255, 255, 255⟩,
        by decide, by decide⟩)
    (by decide) (by decide)

/-! ## Claim C9: unknown names are rejected at Theme construction -/

/-- A key occurs in the collected dict. -/
def keyMem (d : Dict) (k : List Char) : Prop := ∃ v, (k, v) ∈ d

def exceptIsOk {α : Type} : Except Err α → Bool
  | .ok _ => true
  | .error _ => false

theorem keyMem_insert_self (d : Dict) (k : List Char) (v : Color) :
    keyMem (dictInsert d k v) k := by
  induction d with
  | nil => exact ⟨v, by simp [dictInsert]⟩
  | cons p t ih =>
    unfold dictInsert
    by_cases h : p.1 = k
    · rw [if_pos h]
      exact ⟨v, by simp [h]⟩
    · rw [if_neg h]
      obtain ⟨w, hw⟩ := ih
      exact ⟨w, by simp [hw]⟩

theorem keyMem_insert_mono (d : Dict) (k' : List Char) (v' : Color)
    (k : List Char) (h : keyMem d k) : keyMem (dictInsert d k' v') k := by
  induction d with
  | nil => obtain ⟨w, hw⟩ := h; simp at hw
  | cons p t ih =>
    obtain ⟨w, hw⟩ := h
    unfold dictInsert
    rcases List.mem_cons.1 hw with heq | hmem
    · by_cases hpk : p.1 = k'
      · rw [if_pos hpk]
        exact ⟨v', by rw [← heq] at hpk ⊢; simp [← hpk]⟩
      · rw [if_neg hpk]
        exact ⟨w, by simp [heq]⟩
    · by_cases hpk : p.1 = k'
      · rw [if_pos hpk]
        exact ⟨w, by simp [hmem]⟩
      · rw [if_neg hpk]
        obtain ⟨u, hu⟩ := ih ⟨w, hmem⟩
        exact ⟨u, by simp [hu]⟩

theorem nidxLoop_keyMem (ls : List (List Char)) :
    ∀ (i : Nat) (d d' : Dict) (k : List Char), keyMem d k →
      nidxLoop i ls d = .ok d' → keyMem d' k := by
  induction ls with
  | nil =>
    intro i d d' k hk hloop
    simp only [nidxLoop] at hloop
    exact Except.ok.inj hloop ▸ hk
  | cons l t ih =>
    intro i d d' k hk hloop
    simp only [nidxLoop] at hloop
    by_cases hcm : l.head? = some '#'
    · rw [if_pos hcm] at hloop
      exact ih _ _ _ _ hk hloop
    · rw [if_neg hcm] at hloop
      rcases hsp : splitWs l with _ | ⟨a, _ | ⟨b, _ | t2⟩⟩ <;>
          rw [hsp] at hloop <;> dsimp only at hloop
      · exact absurd hloop (by simp)
      · exact absurd hloop (by simp)
      · cases hp : Color.parse b <;> rw [hp] at hloop <;> dsimp only at hloop
        · exact absurd hloop (by simp)
        · exact ih _ _ _ _ (keyMem_insert_mono d a _ k hk) hloop
      · exact absurd hloop (by simp)

theorem csvLoop_keyMem (ls : List (List Char)) :
    ∀ (i : Nat) (d d' : Dict) (k : List Char), keyMem d k →
      csvLoop i ls d = .ok d' → keyMem d' k := by
  induction ls with
  | nil =>
    intro i d d' k hk hloop
    simp only [csvLoop] at hloop
    exact Except.ok.inj hloop ▸ hk
  | cons l t ih =>
    intro i d d' k hk hloop
    simp only [csvLoop] at hloop
    by_cases hcm : l.head? = some '#'
    · rw [if_pos hcm] at hloop
      exact ih _ _ _ _ hk hloop
    · rw [if_neg hcm] at hloop
      rcases hsp : splitComma l with _ | ⟨a, _ | ⟨b, _ | t2⟩⟩ <;>
          rw [hsp] at hloop <;> dsimp only at hloop
      · exact absurd hloop (by simp)
      · exact absurd hloop (by simp)
      · cases hp : Color.parse b <;> rw [hp] at hloop <;> dsimp only at hloop
        · exact absurd hloop (by simp)
        · exact ih _ _ _ _ (keyMem_insert_mono d a _ k hk) hloop
      · exact absurd hloop (by simp)

theorem nidxLoop_unknown (ls : List (List Char)) :
    ∀ (i : Nat) (d : Dict) (l name v : List Char), l ∈ ls →
      ¬(l.head? = some '#') → splitWs l = [name, v] →
      ∀ d', nidxLoop i ls d = .ok d' → keyMem d' name := by
  induction ls with
  | nil => intro i d l name v hmem; simp at hmem
  | cons a t ih =>
    intro i d l name v hmem hcm hsp d' hloop
    simp only [nidxLoop] at hloop
    rcases List.mem_cons.1 hmem with rfl | hmem'
    · rw [if_neg hcm, hsp] at hloop
      dsimp only at hloop
      cases hp : Color.parse v <;> rw [hp] at hloop <;> dsimp only at hloop
      · exact absurd hloop (by simp)
      · exact nidxLoop_keyMem t _ _ _ _ (keyMem_insert_self d name _) hloop
    · by_cases hca : a.head? = some '#'
      · rw [if_pos hca] at hloop
        exact ih _ _ _ _ _ hmem' hcm hsp _ hloop
      · rw [if_neg hca] at hloop
        rcases hsa : splitWs a with _ | ⟨x, _ | ⟨y, _ | t2⟩⟩ <;>
            rw [hsa] at hloop <;> dsimp only at hloop
        · exact absurd hloop (by simp)
        · exact absurd hloop (by simp)
        · cases hp : Color.parse y <;> rw [hp] at hloop <;> dsimp only at hloop
          · exact absurd hloop (by simp)
          · exact ih _ _ _ _ _ hmem' hcm hsp _ hloop
        · exact absurd hloop (by simp)

theorem csvLoop_unknown (ls : List (List Char)) :
    ∀ (i : Nat) (d : Dict) (l name v : List Char), l ∈ ls →
      ¬(l.head? = some '#') → splitComma l = [name, v] →
      ∀ d', csvLoop i ls d = .ok d' → keyMem d' name := by
  induction ls with
  | nil => intro i d l name v hmem; simp at hmem
  | cons a t ih =>
    intro i d l name v hmem hcm hsp d' hloop
    simp only [csvLoop] at hloop
    rcases List.mem_cons.1 hmem with rfl | hmem'
    · rw [if_neg hcm, hsp] at hloop
      dsimp only at hloop
      cases hp : Color.parse v <;> rw [hp] at hloop <;> dsimp only at hloop
      · exact absurd hloop (by simp)
      · exact csvLoop_keyMem t _ _ _ _ (keyMem_insert_self d name _) hloop
    · by_cases hca : a.head? = some '#'
      · rw [if_pos hca] at hloop
        exact ih _ _ _ _ _ hmem' hcm hsp _ hloop
      · rw [if_neg hca] at hloop
        rcases hsa : splitComma a with _ | ⟨x, _ | ⟨y, _ | t2⟩⟩ <;>
            rw [hsa] at hloop <;> dsimp only at hloop
        · exact absurd hloop (by simp)
        · exact absurd hloop (by simp)
        · cases hp : Color.parse y <;> rw [hp] at hloop <;> dsimp only at hloop
          · exact absurd hloop (by simp)
          · exact ih _ _ _ _ _ hmem' hcm hsp _ hloop
        · exact absurd hloop (by simp)

theorem mkTheme_unknownKey (d : Dict) (k : List Char) (hmem : keyMem d k)
    (hnot : ¬(k ∈ themeFields)) : mkTheme d = .error .typeError := by
  obtain ⟨v, hv⟩ := hmem
  have hc : themeFields.contains k = false := by
    cases hcc : themeFields.contains k
    · rfl
    · exact absurd (by simpa using hcc) hnot
  have hall : (d.all fun p => themeFields.contains p.1) = false :=
    List.all_eq_false.mpr ⟨(k, v), hv, by simpa using hc⟩
  unfold mkTheme
  rw [hall, Bool.false_and]
  simp

/-- C9: in the name-value and delimited decoders, an input containing a
well-formed two-token line whose name is not one of the 20 Theme slot names
never yields a Theme: the unknown keyword makes `Theme(**color_dict)`
fail. -/
theorem C9_unknown_names_rejected :
    (∀ (ls : List (List Char)) (l name v : List Char), l ∈ ls →
      ¬(l.head? = some '#') → splitWs l = [name, v] → ¬(name ∈ themeFields) →
      exceptIsOk (read_nidx ls) = false) ∧
    (∀ (ls : List (List Char)) (l name v : List Char), l ∈ ls →
      ¬(l.head? = some '#') → splitComma l = [name, v] → ¬(name ∈ themeFields) →
      exceptIsOk (read_csv ls) = false) := by
  constructor
  · intro ls l name v hmem hcm hsp hnot
    unfold read_nidx
    cases hloop : nidxLoop 0 ls [] with
    | error e => rw [exceptBindErr]; rfl
    | ok d' =>
      rw [exceptBindOk,
        mkTheme_unknownKey d' name (nidxLoop_unknown ls 0 [] l name v hmem hcm hsp d' hloop) hnot]
      rfl
  · intro ls l name v hmem hcm hsp hnot
    unfold read_csv
    cases hloop : csvLoop 0 ls [] with
    | error e => rw [exceptBindErr]; rfl
    | ok d' =>
      rw [exceptBindOk,
        mkTheme_unknownKey d' name (csvLoop_unknown ls 0 [] l name v hmem hcm hsp d' hloop) hnot]
      rfl

/-- Witness for C9: an input with the unknown name `mystery` never decodes. -/
theorem C9_unknown_names_rejected_witness :
    exceptIsOk (read_nidx ["foreground #ffffff".toList,
      "mystery #000000".toList]) = false :=
  C9_unknown_names_rejected.1
    ["foreground #ffffff".toList, "mystery #000000".toList]
    ("mystery #000000".toList) ("mystery".toList) ("#000000".toList)
    (by decide) (by decide) (by decide) (by decide)

/-! ## Claim C10: xres label dispatch -/

/-- A complete xres input (cursorColor omitted; it defaults). -/
def c10base : List (List Char) :=
  (["foreground: #111111", "background: #222222",
    "color0: #000000", "color1: #010101", "color2: #020202", "color3: #030303",
    "color4: #040404", "color5: #050505", "color6: #060606", "color7: #070707",
    "color8: #080808", "color9: #090909", "color10: #0a0a0a",
    "color11: #0b0b0b", "color12: #0c0c0c", "color13: #0d0d0d",
    "color14: #0e0e0e", "color15: #0f0f0f"]).map String.toList

/-- C10 counterexample: the claim says a matching line whose reduced label
is none of the recognized forms raises no error; but `colorful` (which is
not `color` followed by a number) makes the decoder raise `ValueError` from
`int('ful')`: the same input decodes fine without the line and fails with
it. -/
theorem C10_xres_counterexample :
    read_xres c10base
      = .ok
        { foreground := ⟨17, 17, 17⟩, background := ⟨34, 34, 34⟩
          black := ⟨0, 0, 0⟩, red := ⟨1, 1, 1⟩, green := ⟨2, 2, 2⟩
          yellow := ⟨3, 3, 3⟩, blue := ⟨4, 4, 4⟩, magenta := ⟨5, 5, 5⟩
          cyan := ⟨6, 6, 6⟩, white := ⟨7, 7, 7⟩
          black_bright := ⟨8, 8, 8⟩, red_bright := ⟨9, 9, 9⟩
          green_bright := ⟨10, 10, 10⟩, yellow_bright := ⟨11, 11, 11⟩
          blue_bright := ⟨12, 12, 12⟩, magenta_bright := ⟨13, 13, 13⟩
          cyan_bright := ⟨14, 14, 14⟩, white_bright := ⟨15, 15, 15⟩
          cursor := cursorDefault, cursor_reverse := cursorReverseDefault } ∧
    read_xres (c10base ++ ["colorful: #0a0b0c".toList]) = .error .valueError := by
  constructor
  · decide
  · decide

/-- C10 (amended): a matching line whose reduced label is neither
`foreground`, `background`, `cursorColor`, nor *starts with* `color` is
silently ignored (no error, no slot).  A label starting with `color` is fed
to `int()`: a non-numeric remainder raises `ValueError`, and a numeric one
outside 0–15 (the domain of `NAME_FOR`) raises `KeyError`. -/
theorem C10_xres_label_dispatch :
    (∀ (l : List Char) (ls : List (List Char)) (d : Dict)
       (label0 hx lab : List Char) (c : Color),
       ¬(l.head? = some '!' || isBlank l) = true →
       xresSearch l = some (label0, hx) → Color.parse hx = .ok c →
       reduceLabel label0 = lab →
       ¬(lab = fgN) → ¬(lab = bgN) → ¬(lab = cursorColorN) →
       listStartsWith "color".toList lab = false →
       xresLoop (l :: ls) d = xresLoop ls d) ∧
    (∀ n : Int, nameForInt n = none ↔ (n < 0 ∨ 15 < n)) ∧
    (∀ (l : List Char) (ls : List (List Char)) (d : Dict)
       (label0 hx lab : List Char) (c : Color) (n : Int),
       ¬(l.head? = some '!' || isBlank l) = true →
       xresSearch l = some (label0, hx) → Color.parse hx = .ok c →
       reduceLabel label0 = lab →
       ¬(lab = fgN) → ¬(lab = bgN) → ¬(lab = cursorColorN) →
       listStartsWith "color".toList lab = true →
       pyInt (lab.drop 5) = some n → (n < 0 ∨ 15 < n) →
       xresLoop (l :: ls) d = .error .keyError) ∧
    (∀ (l : List Char) (ls : List (List Char)) (d : Dict)
       (label0 hx lab : List Char) (c : Color),
       ¬(l.head? = some '!' || isBlank l) = true →
       xresSearch l = some (label0, hx) → Color.parse hx = .ok c →
       reduceLabel label0 = lab →
       ¬(lab = fgN) → ¬(lab = bgN) → ¬(lab = cursorColorN) →
       listStartsWith "color".toList lab = true →
       pyInt (lab.drop 5) = none →
       xresLoop (l :: ls) d = .error .valueError) := by
  have hrange : ∀ n : Int, nameForInt n = none ↔ (n < 0 ∨ 15 < n) := by
    intro n
    unfold nameForInt
    by_cases hn : n < 0
    · simp [hn]
    · rw [if_neg hn]
      have hlen : NAME_FOR.length = 16 := by decide
      rw [List.get?_eq_none, hlen]
      omega
  refine ⟨?_, hrange, ?_, ?_⟩
  · intro l ls d label0 hx lab c h1 h2 h3 h4 h5 h6 h7 h8
    exact xresStep_other l ls d label0 hx c lab h1 h2 h3 h4 h5 h6 h7 h8
  · intro l ls d label0 hx lab c n h1 h2 h3 h4 h5 h6 h7 h8 h9 h10
    exact xresStep_colorKeyErr l ls d label0 hx c lab n h1 h2 h3 h4 h5 h6 h7 h8
      h9 ((hrange n).mpr h10)
  · intro l ls d label0 hx lab c h1 h2 h3 h4 h5 h6 h7 h8 h9
    exact xresStep_colorErr l ls d label0 hx c lab h1 h2 h3 h4 h5 h6 h7 h8 h9

/-- Witness for C10 (amended): a `widget` label is ignored; `color16`
raises `KeyError`. -/
theorem C10_xres_label_dispatch_witness :
    xresLoop ["*.widget: #0a0b0c".toList] [] = xresLoop [] [] ∧
      xresLoop ["color16: #0a0b0c".toList] [] = .error .keyError :=
  ⟨C10_xres_label_dispatch.1 ("*.widget: #0a0b0c".toList) [] []
      ("*.widget".toList) ("#0a0b0c".toList) ("widget".toList) ⟨10, 11, 12⟩
      (by decide) (by decide) (by decide) (by decide) (by decide) (by decide)
      (by decide) (by decide),
   C10_xres_label_dispatch.2.2.1 ("color16: #0a0b0c".toList) [] []
      ("color16".toList) ("#0a0b0c".toList) ("color16".toList) ⟨10, 11, 12⟩ 16
      (by decide) (by decide) (by decide) (by decide) (by decide) (by decide)
      (by decide) (by decide) (by decide) (by decide)⟩
